import Mathlib

/-!
Session presence engine (`src/services/duplicateLoginService.js`)

A shallow embedding of the class `DuplicateLoginManager`.  The engine object and the
browser objects it touches (socket objects, interval and timeout timers, DOM listeners,
`sessionStorage`, the clock) are fields of one `World` value; every method and every
callback of the source is a function on `World`.  Effects that leave the engine
(messages emitted on a socket, `connect()`/`disconnect()` calls, `clearInterval` calls,
invocations of the caller's callbacks, console lines) are appended to `World.trace`.

Conventions.
* A JavaScript value that is a string or `null`/`undefined` is an `Option String`;
  `truthy` is JavaScript truthiness for such a value (the empty string is falsy).
* `Date.now()` reads `World.now`; the clock does not advance inside one synchronous run.
* The asynchronous method of the source, `initialize`, is split at its suspension point
  (the two consecutive `await`s of the fingerprint library, between which no engine field is
  read or written): `initializeBegin` is the code before it and `initializeResume` the code
  after it.
-/

namespace DuplicateLogin

/-! ## Values -/

/-- JavaScript truthiness of a value that is a string or null. -/
def truthy : Option String → Bool
  | none => false
  | some s => !s.data.isEmpty

/-- The record built by `getBrowserInfo` (source lines 28-33). -/
structure DeviceInfo where
  userAgent : String
  browser : String
  os : String
  device : String
  deriving DecidableEq, Repr

/-! ## Regular expressions of `getBrowserInfo`

All tests are `/.../i.test(ua)`: an unanchored, case-insensitive search.  The patterns are
alternations of literal words, with `.` in the Windows version patterns, `.*` in
`Android.*Mobile` and a negative lookahead in `Android(?!.*Mobile)`. -/

/-- One pattern position: a literal character or the wildcard `.`. -/
inductive PatChar where
  | lit (c : Char)
  | dot
  deriving DecidableEq, Repr

/-- Case folding of the `i` flag on the ASCII range (a non-ASCII character is never folded
onto an ASCII one). -/
def foldCase (c : Char) : Nat :=
  if 97 ≤ c.toNat ∧ c.toNat ≤ 122 then c.toNat - 32 else c.toNat

/-- Line terminators, which `.` does not match. -/
def isLineTerminator (c : Char) : Bool :=
  c.toNat == 10 || c.toNat == 13 || c.toNat == 8232 || c.toNat == 8233

/-- Whether one pattern position matches one character.  A `.` matches one UTF-16 code unit,
so it matches a whole character only inside the basic plane. -/
def PatChar.matches : PatChar → Char → Bool
  | .lit p, c => foldCase p == foldCase c
  | .dot, c => !isLineTerminator c && decide (c.toNat < 65536)

/-- A literal pattern. -/
def word (s : String) : List PatChar := s.data.map PatChar.lit

/-- Match a pattern at the start of the input; the result is the input left after it. -/
def matchAt : List PatChar → List Char → Option (List Char)
  | [], cs => some cs
  | _ :: _, [] => none
  | p :: ps, c :: cs => if p.matches c then matchAt ps cs else none

/-- Unanchored search: some suffix of the input starts with the pattern. -/
def search (p : List PatChar) : List Char → Bool
  | [] => (matchAt p []).isSome
  | c :: cs => (matchAt p (c :: cs)).isSome || search p cs

/-- The pattern `.*p` at the start of the input: `p` matches after some run of characters
that are not line terminators. -/
def dotStarThen (p : List PatChar) : List Char → Bool
  | [] => (matchAt p []).isSome
  | c :: cs => (matchAt p (c :: cs)).isSome || (!isLineTerminator c && dotStarThen p cs)

/-- The pattern `p.*q`, searched anywhere. -/
def searchThen (p q : List PatChar) : List Char → Bool
  | [] => match matchAt p [] with
    | some rest => dotStarThen q rest
    | none => false
  | c :: cs =>
    (match matchAt p (c :: cs) with
      | some rest => dotStarThen q rest
      | none => false) || searchThen p q cs

/-- The pattern `p(?!.*q)`, searched anywhere. -/
def searchNotThen (p q : List PatChar) : List Char → Bool
  | [] => match matchAt p [] with
    | some rest => !dotStarThen q rest
    | none => false
  | c :: cs =>
    (match matchAt p (c :: cs) with
      | some rest => !dotStarThen q rest
      | none => false) || searchNotThen p q cs

/-- The test `/w/i.test(ua)` for a literal word `w`. -/
def has (w : String) (ua : String) : Bool := search (word w) ua.data

/-- The pattern `Windows NT a.b`, whose `.` is a wildcard. -/
def windowsNT (a b : String) : List PatChar :=
  word "Windows NT " ++ word a ++ [PatChar.dot] ++ word b

/-- Browser detection, source lines 36-52. -/
def detectBrowser (ua : String) : String :=
  if has "OPR" ua || has "Opera" ua then "Opera"
  else if has "Edg" ua || has "Edge" ua then "Microsoft Edge"
  else if has "Firefox" ua then "Firefox"
  else if has "Safari" ua && !has "Chrome" ua then "Safari"
  else if has "Chrome" ua then "Chrome"
  else if has "MSIE" ua || has "Trident" ua then "Internet Explorer"
  else if has "UCBrowser" ua then "UC Browser"
  else if has "SamsungBrowser" ua then "Samsung Browser"
  else "Unknown"

/-- Operating system detection, source lines 55-75. -/
def detectOs (ua : String) : String :=
  if search (windowsNT "10" "0") ua.data then "Windows 10"
  else if search (windowsNT "6" "3") ua.data then "Windows 8.1"
  else if search (windowsNT "6" "2") ua.data then "Windows 8"
  else if search (windowsNT "6" "1") ua.data then "Windows 7"
  else if has "Windows" ua then "Windows"
  else if has "Mac OS X" ua || has "Macintosh" ua then "macOS"
  else if has "Android" ua then "Android"
  else if has "iPhone" ua || has "iPad" ua || has "iPod" ua then "iOS"
  else if has "Linux" ua then "Linux"
  else if has "CrOS" ua then "ChromeOS"
  else "Unknown"

/-- The outer device test, source line 78:
`/Mobile|Android.*Mobile|iPhone|iPad|iPod|IEMobile|Opera Mini/i`. -/
def mobileTest (ua : String) : Bool :=
  has "Mobile" ua || searchThen (word "Android") (word "Mobile") ua.data || has "iPhone" ua
    || has "iPad" ua || has "iPod" ua || has "IEMobile" ua || has "Opera Mini" ua

/-- The inner device test, source line 82: `/iPad|Android(?!.*Mobile)/i`. -/
def tabletTest (ua : String) : Bool :=
  has "iPad" ua || searchNotThen (word "Android") (word "Mobile") ua.data

/-- Device detection, source lines 77-85. -/
def detectDevice (ua : String) : String :=
  if mobileTest ua then
    if tabletTest ua then "Tablet" else "Mobile"
  else "Desktop"

/-- The method `getBrowserInfo` (source lines 26-88); `ua` is `navigator.userAgent`. -/
def getBrowserInfo (ua : String) : DeviceInfo :=
  { userAgent := ua, browser := detectBrowser ua, os := detectOs ua, device := detectDevice ua }

/-! ## Data model -/

/-- Names of the socket events the engine listens to. -/
inductive SocketEvent where
  | connect
  | connectError
  | disconnect
  | reconnect
  | reconnectAttempt
  | duplicateLoginDetected
  | sessionRegistered
  | logoutSuccess
  | logoutError
  | duplicateSessionsCheckResult
  | refreshDetected
  deriving DecidableEq, Repr

/-- The listener closures the engine registers on a socket.  Only the `connect` closure
(source lines 148-173) captures values of its `initialize` call; the `connect_error`
closures of lines 175-182 and 389-394 have the same body. -/
inductive Handler where
  | connect (userId : Option String) (browserInfo : DeviceInfo)
  | connectError
  | disconnect
  | reconnect
  | reconnectAttempt
  | duplicateLoginDetected
  | sessionRegistered
  | logoutSuccess
  | logoutError
  | duplicateSessionsCheckResult
  | refreshDetected
  deriving DecidableEq, Repr

/-- The event a listener closure is registered for. -/
def Handler.event : Handler → SocketEvent
  | .connect _ _ => .connect
  | .connectError => .connectError
  | .disconnect => .disconnect
  | .reconnect => .reconnect
  | .reconnectAttempt => .reconnectAttempt
  | .duplicateLoginDetected => .duplicateLoginDetected
  | .sessionRegistered => .sessionRegistered
  | .logoutSuccess => .logoutSuccess
  | .logoutError => .logoutError
  | .duplicateSessionsCheckResult => .duplicateSessionsCheckResult
  | .refreshDetected => .refreshDetected

/-- A socket object made by `io(...)`.  `closed` records that `disconnect()` was the last
open/close request made on it; a new socket is connecting by itself (`autoConnect: true`). -/
structure Socket where
  connected : Bool
  closed : Bool
  listeners : List Handler
  deriving DecidableEq, Repr

/-- A timestamp handed to the caller: a value carried by the event, or
`new Date(ms).toISOString()`. -/
inductive TimeStamp where
  | given (s : String)
  | isoOf (ms : Nat)
  deriving DecidableEq, Repr

/-- Payload of `duplicate_login_detected` and of `duplicate_sessions_check_result`: an object
whose fields may be missing. -/
structure DuplicateData where
  hasDuplicates : Bool
  message : Option String
  timestamp : Option String
  deviceInfo : Option DeviceInfo
  deriving DecidableEq, Repr

/-- The object handed to `onDuplicateLogin`. -/
structure DuplicatePayload where
  message : Option String
  timestamp : TimeStamp
  deviceInfo : DeviceInfo
  deriving DecidableEq, Repr

/-- Payload of `session_registered`. -/
structure RegisterResponse where
  success : Bool
  message : Option String
  deriving DecidableEq, Repr

/-- The two `health_check` emissions: the immediate one of `startHealthCheck`
(lines 249-256) and the periodic one (lines 262-274); they carry different acknowledgment
callbacks. -/
inductive HealthKind where
  | immediate
  | periodic
  deriving DecidableEq, Repr

/-- Messages emitted to the coordinator. -/
inductive Msg where
  | registerSession (userId fingerprint : Option String) (deviceInfo : DeviceInfo)
      (timestamp : Nat)
  | heartbeat (userId fingerprint : Option String) (timestamp : Nat)
  | healthCheck (kind : HealthKind)
  | checkDuplicateSessions (userId fingerprint : Option String) (timestamp : Nat)
  | logout (userId : Option String)
  | pageRefreshPending (userId fingerprint : Option String) (timestamp : Nat)
  deriving DecidableEq, Repr

/-- Effects visible outside the engine, in the order they happen. -/
inductive Effect where
  | emit (socket : Nat) (msg : Msg)
  | socketConnect (socket : Nat)
  | socketDisconnect (socket : Nat)
  | clearInterval (id : Nat)
  | onDuplicateLogin (handler : Nat) (data : DuplicatePayload)
  | onSessionRegistered (handler : Nat) (response : RegisterResponse)
  | onLogoutSuccess (handler : Nat)
  | onDisconnect (handler : Nat) (reason : String)
  | onConnect (handler : Nat)
  | onError (handler : Nat) (error : String)
  | console (line : String)
  | uncaught (error : String)
  deriving DecidableEq, Repr

/-- The callback registry (source lines 16-23); a handler is known by its identity. -/
structure Callbacks where
  onDuplicateLogin : Option Nat
  onSessionRegistered : Option Nat
  onLogoutSuccess : Option Nat
  onDisconnect : Option Nat
  onConnect : Option Nat
  onError : Option Nat
  deriving DecidableEq, Repr

/-- The fields of the engine object (source lines 6-23).  `socket` is a reference into
`World.sockets`; a timer field holds the handle `setInterval` returned, which is a positive
integer and therefore truthy, or is `none` for `null`. -/
structure Engine where
  socket : Option Nat
  visitorId : Option String
  healthCheckInterval : Option Nat
  reconnectInterval : Option Nat
  heartbeatInterval : Option Nat
  userId : Option String
  backendUrl : Option String
  lastRegistered : Nat
  isConnecting : Bool
  connectionAttempts : Nat
  callbacks : Callbacks
  deriving DecidableEq, Repr

/-- The three timer families. -/
inductive TimerFamily where
  | heartbeat
  | healthCheck
  | reconnect
  deriving DecidableEq, Repr

/-- An active `setInterval` timer. -/
structure Interval where
  id : Nat
  family : TimerFamily
  period : Nat
  deriving DecidableEq, Repr

/-- The bodies of the `setTimeout` closures of the source. -/
inductive TimeoutTask where
  | checkDuplicates (userId : Option String)
  | checkDuplicatesCurrent
  | reRegister
  | reRegisterAndCheck
  | cleanup
  deriving DecidableEq, Repr

/-- A pending `setTimeout` timer, due at clock value `due`. -/
structure Timeout where
  id : Nat
  due : Nat
  task : TimeoutTask
  deriving DecidableEq, Repr

/-- A listener on `document`: the event type and the identity of the function object. -/
structure DocListener where
  type : String
  fn : Nat
  deriving DecidableEq, Repr

/-- The arrow functions `setupVisibilityHandling` adds on `window`. -/
inductive WindowHandler where
  | beforeunload
  | load
  deriving DecidableEq, Repr

/-- A call of `initialize` suspended at its `await`, with the arguments it was called with. -/
structure PendingInit where
  userId : Option String
  backendUrl : Option String
  deriving DecidableEq, Repr

/-- The engine together with the browser objects it touches. -/
structure World where
  eng : Engine
  sockets : List Socket
  intervals : List Interval
  timeouts : List Timeout
  timerSeq : Nat
  docListeners : List DocListener
  windowListeners : List WindowHandler
  sessionStorage : List (String × String)
  pending : List PendingInit
  now : Nat
  userAgent : String
  documentHidden : Bool
  trace : List Effect
  deriving DecidableEq, Repr

/-- The engine as built by the constructor (source lines 5-24). -/
def Engine.initial : Engine :=
  { socket := none, visitorId := none, healthCheckInterval := none, reconnectInterval := none,
    heartbeatInterval := none, userId := none, backendUrl := none, lastRegistered := 0,
    isConnecting := false, connectionAttempts := 0,
    callbacks := { onDuplicateLogin := none, onSessionRegistered := none,
                   onLogoutSuccess := none, onDisconnect := none, onConnect := none,
                   onError := none } }

/-- A freshly loaded page holding a freshly constructed engine. -/
def World.initial (now : Nat) (userAgent : String) : World :=
  { eng := Engine.initial, sockets := [], intervals := [], timeouts := [], timerSeq := 0,
    docListeners := [], windowListeners := [], sessionStorage := [], pending := [], now := now,
    userAgent := userAgent, documentHidden := false, trace := [] }

/-! ## Browser primitives -/

/-- The call `console.log` or `console.error`. -/
def logLine (line : String) (w : World) : World :=
  { w with trace := w.trace ++ [Effect.console line] }

/-- Apply `f` to the element at position `n`, if there is one. -/
def modifyAt {α : Type} (f : α → α) : Nat → List α → List α
  | _, [] => []
  | 0, x :: xs => f x :: xs
  | n + 1, x :: xs => x :: modifyAt f n xs

/-- The call `socket.emit(...)` on socket `sid`. -/
def emit (sid : Nat) (msg : Msg) (w : World) : World :=
  { w with trace := w.trace ++ [Effect.emit sid msg] }

/-- The call `socket.on(event, h)`. -/
def socketOn (sid : Nat) (h : Handler) (w : World) : World :=
  let add := fun (s : Socket) => { s with listeners := s.listeners ++ [h] }
  { w with sockets := modifyAt add sid w.sockets }

/-- The call `socket.off(event)`: every listener of that event is removed. -/
def socketOff (sid : Nat) (ev : SocketEvent) (w : World) : World :=
  let off := fun (s : Socket) => { s with listeners := s.listeners.filter (fun h => h.event != ev) }
  { w with sockets := modifyAt off sid w.sockets }

/-- The call `socket.connect()`: a request to (re)open the connection. -/
def socketConnect (sid : Nat) (w : World) : World :=
  let reopen := fun (s : Socket) => { s with closed := false }
  { w with sockets := modifyAt reopen sid w.sockets,
           trace := w.trace ++ [Effect.socketConnect sid] }

/-- The call `socket.disconnect()`. -/
def socketDisconnect (sid : Nat) (w : World) : World :=
  let close := fun (s : Socket) => { s with connected := false, closed := true }
  { w with sockets := modifyAt close sid w.sockets,
           trace := w.trace ++ [Effect.socketDisconnect sid] }

/-- The expression `this.socket && this.socket.connected`. -/
def socketConnected (w : World) : Bool :=
  match w.eng.socket with
  | some sid =>
    match w.sockets[sid]? with
    | some s => s.connected
    | none => false
  | none => false

/-- The call `io(backendUrl, ...)` with `forceNew: true`: a new socket object, which starts
connecting by itself. -/
def io (w : World) : Nat × World :=
  (w.sockets.length,
    { w with sockets := w.sockets ++ [{ connected := false, closed := false, listeners := [] }] })

/-- The call `clearInterval(id)`. -/
def clearInterval (id : Nat) (w : World) : World :=
  { w with intervals := w.intervals.filter (fun t => t.id != id),
           trace := w.trace ++ [Effect.clearInterval id] }

/-- The call `setInterval(callback, period)`; the result is the handle. -/
def setInterval (family : TimerFamily) (period : Nat) (w : World) : Nat × World :=
  (w.timerSeq + 1,
    { w with timerSeq := w.timerSeq + 1,
             intervals := w.intervals ++ [{ id := w.timerSeq + 1, family := family, period := period }] })

/-- The call `setTimeout(callback, delay)`; the handle is dropped by every caller. -/
def setTimeout (task : TimeoutTask) (delay : Nat) (w : World) : World :=
  { w with timerSeq := w.timerSeq + 1,
           timeouts := w.timeouts ++ [{ id := w.timerSeq + 1, due := w.now + delay, task := task }] }

/-- The call `sessionStorage.getItem(key)`. -/
def getItem (key : String) (w : World) : Option String :=
  (w.sessionStorage.find? (fun kv => kv.1 == key)).map (fun kv => kv.2)

/-- The call `sessionStorage.setItem(key, value)`. -/
def setItem (key value : String) (w : World) : World :=
  { w with sessionStorage := (w.sessionStorage.filter (fun kv => kv.1 != key)) ++ [(key, value)] }

/-- The identity of a function object made now (by `bind` or by a function expression): it
differs from the identity of every listener that is registered. -/
def freshFn (ls : List DocListener) : Nat :=
  (ls.map (fun l => l.fn)).foldr max 0 + 1

/-- The call `document.addEventListener(type, fn)`; a listener already registered is not
added again. -/
def addEventListener (type : String) (fn : Nat) (w : World) : World :=
  if w.docListeners.contains { type := type, fn := fn } then w
  else { w with docListeners := w.docListeners ++ [{ type := type, fn := fn }] }

/-- The call `document.removeEventListener(type, fn)`: the listener with this type and this
function object is removed. -/
def removeEventListener (type : String) (fn : Nat) (w : World) : World :=
  { w with docListeners := w.docListeners.filter (fun l => !(l.type == type && l.fn == fn)) }

/-! ## Methods of the engine -/

/-- The method `cleanup` (source lines 456-500). -/
def cleanup (w : World) : World :=
  -- Clear health check interval
  let w := match w.eng.healthCheckInterval with
    | some id => { clearInterval id w with eng.healthCheckInterval := none }
    | none => w
  -- Clear reconnect interval
  let w := match w.eng.reconnectInterval with
    | some id => { clearInterval id w with eng.reconnectInterval := none }
    | none => w
  -- Clear heartbeat interval
  let w := match w.eng.heartbeatInterval with
    | some id => { clearInterval id w with eng.heartbeatInterval := none }
    | none => w
  -- Remove visibility event listeners: the argument is a new function object from `bind`
  let w := removeEventListener "visibilitychange" (freshFn w.docListeners) w
  -- Remove all listeners and disconnect socket
  let w := match w.eng.socket with
    | some sid =>
      let w := socketOff sid .duplicateLoginDetected w
      let w := socketOff sid .sessionRegistered w
      let w := socketOff sid .logoutSuccess w
      let w := socketOff sid .logoutError w
      let w := socketOff sid .connect w
      let w := socketOff sid .disconnect w
      let w := socketOff sid .connectError w
      let w := socketOff sid .reconnect w
      let w := socketOff sid .reconnectAttempt w
      let w := socketOff sid .duplicateSessionsCheckResult w
      let w := socketOff sid .refreshDetected w
      let w := socketDisconnect sid w
      { w with eng.socket := none }
    | none => w
  -- Reset connection state
  { w with eng.isConnecting := false, eng.connectionAttempts := 0 }

/-- How a call of `initialize` stands when control returns to the caller: its promise is
settled with a boolean, or the call is suspended at the fingerprint `await`. -/
inductive InitResult where
  | returned (value : Bool)
  | suspended
  deriving DecidableEq, Repr

/-- The method `initialize` up to its first `await` (source lines 90-114). -/
def initializeBegin (userId backendUrl : Option String) (w : World) : InitResult × World :=
  if !truthy userId || !truthy backendUrl then
    (.returned false, logLine "DuplicateLoginManager: Missing required parameters" w)
  else if w.eng.isConnecting then
    (.returned true, logLine "Already attempting to connect, waiting..." w)
  else
    let w := { w with eng.isConnecting := true }
    let w := { w with eng.connectionAttempts := w.eng.connectionAttempts + 1 }
    -- Store user ID and backend URL for reconnection purposes
    let w := { w with eng.userId := userId }
    let w := { w with eng.backendUrl := backendUrl }
    -- Clean up any existing connection
    let w := cleanup w
    (.suspended, { w with pending := w.pending ++ [{ userId := userId, backendUrl := backendUrl }] })

/-- The method `registerSession` (source lines 409-435). -/
def registerSession (userId : Option String) (browserInfo : Option DeviceInfo) (w : World) :
    Bool × World :=
  if !truthy userId then
    (false, logLine "Cannot register session - missing userId" w)
  else
    match w.eng.socket with
    | some sid =>
      if truthy w.eng.visitorId then
        let deviceInfo := browserInfo.getD (getBrowserInfo w.userAgent)
        let w := emit sid (.registerSession userId w.eng.visitorId deviceInfo w.now) w
        -- Track last registration attempt
        (true, { w with eng.lastRegistered := w.now })
      else (false, w)
    | none =>
      if truthy w.eng.visitorId && truthy w.eng.userId && truthy w.eng.backendUrl
          && !w.eng.isConnecting then
        -- the socket is missing: try to reconnect
        (false, (initializeBegin w.eng.userId w.eng.backendUrl w).2)
      else (false, w)

/-- The method `checkForDuplicateSessions` (source lines 573-582). -/
def checkForDuplicateSessions (userId : Option String) (w : World) : World :=
  match w.eng.socket with
  | some sid =>
    if !truthy userId || !socketConnected w then w
    else emit sid (.checkDuplicateSessions userId w.eng.visitorId w.now) w
  | none => w

/-- The method `startHeartbeat` (source lines 198-214). -/
def startHeartbeat (w : World) : World :=
  let w := match w.eng.heartbeatInterval with
    | some id => clearInterval id w
    | none => w
  let (id, w) := setInterval .heartbeat 15000 w
  { w with eng.heartbeatInterval := some id }

/-- The method `startReconnectStrategy` (source lines 216-239). -/
def startReconnectStrategy (w : World) : World :=
  match w.eng.reconnectInterval with
  | some _ => w
  | none =>
    let (id, w) := setInterval .reconnect 8000 w
    { w with eng.reconnectInterval := some id }

/-- The method `startHealthCheck` (source lines 241-282). -/
def startHealthCheck (w : World) : World :=
  let w := match w.eng.healthCheckInterval with
    | some id => clearInterval id w
    | none => w
  -- Perform an immediate health check
  let w := match w.eng.socket with
    | some sid =>
      if socketConnected w && truthy w.eng.userId then emit sid (.healthCheck .immediate) w
      else w
    | none => w
  let (id, w) := setInterval .healthCheck 20000 w
  { w with eng.healthCheckInterval := some id }

/-- What the environment supplies to one run of the fingerprint block: the result of the
fingerprinting library (`none` when `FingerprintJS.load()` or `fp.get()` rejects) and the
string `Math.random().toString(36).substring(2, 15)`. -/
structure FingerprintRun where
  result : Option String
  entropy : String
  deriving DecidableEq, Repr

/-- The template string of source line 124. -/
def fallbackFingerprint (userId : Option String) (now : Nat) (entropy : String) : String :=
  "fallback-" ++ userId.getD "null" ++ "-" ++ toString now ++ "-" ++ entropy

/-- The fingerprint block of `initialize` (source lines 112-130), which the specification
calls `resolveFingerprint`.  It sets `visitorId` and updates `sessionStorage`. -/
def resolveFingerprint (userId : Option String) (run : FingerprintRun) (w : World) : World :=
  match run.result with
  | some visitorId =>
    let w := { w with eng.visitorId := some visitorId }
    -- Store fingerprint in sessionStorage for persistence across refreshes
    setItem "dlm_fingerprint" visitorId w
  | none =>
    let w := logLine "DuplicateLoginManager: Using fallback fingerprint" w
    -- Try to get from sessionStorage first
    let stored := getItem "dlm_fingerprint" w
    let visitorId :=
      if truthy stored then stored.getD "" else fallbackFingerprint userId w.now run.entropy
    let w := { w with eng.visitorId := some visitorId }
    -- Store the fallback fingerprint
    if !truthy (getItem "dlm_fingerprint" w) then setItem "dlm_fingerprint" visitorId w else w

/-- The method `setupEventListeners` (source lines 284-407). -/
def setupEventListeners (w : World) : World :=
  match w.eng.socket with
  | none => w
  | some sid =>
    -- Remove existing listeners to avoid duplicates
    let w := socketOff sid .duplicateLoginDetected w
    let w := socketOff sid .sessionRegistered w
    let w := socketOff sid .logoutSuccess w
    let w := socketOff sid .logoutError w
    let w := socketOff sid .disconnect w
    let w := socketOff sid .connectError w
    let w := socketOff sid .reconnect w
    let w := socketOff sid .reconnectAttempt w
    let w := socketOff sid .duplicateSessionsCheckResult w
    let w := socketOff sid .refreshDetected w
    -- Re-add the listeners
    let w := socketOn sid .duplicateLoginDetected w
    let w := socketOn sid .duplicateSessionsCheckResult w
    let w := socketOn sid .refreshDetected w
    let w := socketOn sid .sessionRegistered w
    let w := socketOn sid .logoutSuccess w
    let w := socketOn sid .logoutError w
    let w := socketOn sid .disconnect w
    let w := socketOn sid .connectError w
    let w := socketOn sid .reconnect w
    socketOn sid .reconnectAttempt w

/-- The method `setupVisibilityHandling` (source lines 523-555): `bind` makes a new function
object, which is added on `document`; two arrow functions are added on `window`. -/
def setupVisibilityHandling (w : World) : World :=
  let w := addEventListener "visibilitychange" (freshFn w.docListeners) w
  { w with windowListeners := w.windowListeners ++ [.beforeunload, .load] }

/-- The method `initialize` after its `await`s (source lines 115-190), for the suspended
call `p`. -/
def initializeResume (p : PendingInit) (run : FingerprintRun) (w : World) : InitResult × World :=
  -- Get fingerprint
  let w := resolveFingerprint p.userId run w
  -- Get browser info
  let browserInfo := getBrowserInfo w.userAgent
  -- Initialize socket
  let (sid, w) := io w
  let w := { w with eng.socket := some sid }
  -- Set up socket connection event handlers
  let w := socketOn sid (.connect p.userId browserInfo) w
  let w := socketOn sid .connectError w
  -- Set up event listeners
  let w := setupEventListeners w
  -- Add page visibility change handling
  let w := setupVisibilityHandling w
  (.returned true, w)

/-- The environment resumes the suspended call at position `i` of `World.pending`. -/
def resumePending (i : Nat) (run : FingerprintRun) (w : World) : World :=
  match w.pending[i]? with
  | some p => (initializeResume p run { w with pending := w.pending.eraseIdx i }).2
  | none => w

/-- The argument of `setCallbacks`: for each key, `none` when the key is missing and
otherwise the value given for it (a handler, or null). -/
structure CallbackPatch where
  onDuplicateLogin : Option (Option Nat)
  onSessionRegistered : Option (Option Nat)
  onLogoutSuccess : Option (Option Nat)
  onDisconnect : Option (Option Nat)
  onConnect : Option (Option Nat)
  onError : Option (Option Nat)
  deriving DecidableEq, Repr

/-- The method `setCallbacks` (source lines 437-439): the object spread keeps a registered
handler unless the argument has the key. -/
def setCallbacks (given : CallbackPatch) (w : World) : World :=
  { w with eng.callbacks :=
      { onDuplicateLogin := given.onDuplicateLogin.getD w.eng.callbacks.onDuplicateLogin,
        onSessionRegistered := given.onSessionRegistered.getD w.eng.callbacks.onSessionRegistered,
        onLogoutSuccess := given.onLogoutSuccess.getD w.eng.callbacks.onLogoutSuccess,
        onDisconnect := given.onDisconnect.getD w.eng.callbacks.onDisconnect,
        onConnect := given.onConnect.getD w.eng.callbacks.onConnect,
        onError := given.onError.getD w.eng.callbacks.onError } }

/-- The method `logout` (source lines 441-454). -/
def logout (userId : Option String) (w : World) : World :=
  match w.eng.socket with
  | some sid =>
    -- Send logout event first
    let w := emit sid (.logout userId) w
    -- Clear user ID to prevent attempts to reconnect after logout
    let w := { w with eng.userId := none }
    setTimeout .cleanup 500 w
  | none => w

/-- The method `handleVisibilityChange` (source lines 557-571). -/
def handleVisibilityChange (w : World) : World :=
  if !w.documentHidden && truthy w.eng.userId && truthy w.eng.visitorId then
    -- Re-establish connection if needed
    let w := match w.eng.socket with
      | some sid => if !socketConnected w then socketConnect sid w else w
      | none => w
    setTimeout .reRegisterAndCheck 1000 w
  else w

/-- The `load` listener of `setupVisibilityHandling` (source lines 541-554). -/
def windowLoad (w : World) : World :=
  if truthy w.eng.userId && truthy w.eng.visitorId then
    let w := match w.eng.socket with
      | some sid => if !socketConnected w then socketConnect sid w else w
      | none => w
    setTimeout .reRegisterAndCheck 1000 w
  else w

/-- The `beforeunload` listener of `setupVisibilityHandling` (source lines 528-538). -/
def beforeUnload (w : World) : World :=
  match w.eng.socket with
  | some sid =>
    if socketConnected w then
      emit sid (.pageRefreshPending w.eng.userId w.eng.visitorId w.now) w
    else w
  | none => w

/-! ## Timer callbacks -/

/-- The heartbeat interval callback (source lines 205-213). -/
def heartbeatTick (w : World) : World :=
  match w.eng.socket with
  | some sid =>
    if socketConnected w && truthy w.eng.userId then
      emit sid (.heartbeat w.eng.userId w.eng.visitorId w.now) w
    else w
  | none => w

/-- The reconnect watchdog interval callback (source lines 221-238). -/
def reconnectTick (w : World) : World :=
  if !socketConnected w then
    match w.eng.socket with
    | some sid =>
      -- Try reconnecting the existing socket
      socketConnect sid w
    | none =>
      if truthy w.eng.userId && truthy w.eng.backendUrl && !w.eng.isConnecting then
        -- Create a new socket if the old one is gone
        let w := logLine "Socket missing, attempting to reinitialize" w
        (initializeBegin w.eng.userId w.eng.backendUrl w).2
      else w
  else
    -- If connected, try to re-register the session if it has been a while
    if (w.now : Int) - (w.eng.lastRegistered : Int) > 45000 then
      (registerSession w.eng.userId (some (getBrowserInfo w.userAgent)) w).2
    else w

/-- The health-check interval callback (source lines 260-281). -/
def healthCheckTick (w : World) : World :=
  match w.eng.socket with
  | some sid =>
    if socketConnected w then emit sid (.healthCheck .periodic) w
    else if truthy w.eng.userId then
      let w := socketConnect sid w
      -- Start aggressive reconnection strategy
      startReconnectStrategy w
    else w
  | none => w

/-- The acknowledgment a `health_check` gets: `none` for a falsy response, otherwise the
`status` field of the response object. -/
abbrev HealthResponse := Option (Option String)

/-- The test `response && response.status === 'ok'`. -/
def statusOk (response : HealthResponse) : Bool :=
  response == some (some "ok")

/-- The acknowledgment callback of the immediate health check (source lines 249-256). -/
def healthAckImmediate (response : HealthResponse) (w : World) : World :=
  if statusOk response then setTimeout .checkDuplicatesCurrent 500 w else w

/-- The acknowledgment callback of the periodic health check (source lines 262-274). -/
def healthAckPeriodic (response : HealthResponse) (w : World) : World :=
  if statusOk response then
    -- Re-register occasionally to ensure the server knows we are still active
    if (w.now : Int) - (w.eng.lastRegistered : Int) > 45000 then
      let w := (registerSession w.eng.userId (some (getBrowserInfo w.userAgent)) w).2
      -- Also periodically check for duplicate sessions
      checkForDuplicateSessions w.eng.userId w
    else w
  else w

/-- The callback of an interval timer of the given family. -/
def TimerFamily.tick : TimerFamily → World → World
  | .heartbeat => heartbeatTick
  | .healthCheck => healthCheckTick
  | .reconnect => reconnectTick

/-- The environment fires the active interval timer `id`. -/
def fireInterval (id : Nat) (w : World) : World :=
  match w.intervals.find? (fun t => t.id == id) with
  | some t => t.family.tick w
  | none => w

/-- The body of a `setTimeout` closure. -/
def TimeoutTask.run : TimeoutTask → World → World
  | .checkDuplicates userId, w => checkForDuplicateSessions userId w
  | .checkDuplicatesCurrent, w => checkForDuplicateSessions w.eng.userId w
  | .reRegister, w => (registerSession w.eng.userId (some (getBrowserInfo w.userAgent)) w).2
  | .reRegisterAndCheck, w =>
    let w := (registerSession w.eng.userId (some (getBrowserInfo w.userAgent)) w).2
    checkForDuplicateSessions w.eng.userId w
  | .cleanup, w => DuplicateLogin.cleanup w

/-- The environment fires the pending timeout `id`, once it is due. -/
def fireTimeout (id : Nat) (w : World) : World :=
  match w.timeouts.find? (fun t => t.id == id) with
  | some t =>
    if t.due ≤ w.now then t.task.run { w with timeouts := w.timeouts.filter (fun u => u.id != id) }
    else w
  | none => w

/-! ## Socket listeners -/

/-- An event arriving on a socket, with its payload. -/
inductive Inbound where
  | connect
  | connectError (error : String)
  | disconnect (reason : String)
  | reconnect (attemptNumber : Nat)
  | reconnectAttempt (attemptNumber : Nat)
  | duplicateLoginDetected (data : DuplicateData)
  | sessionRegistered (response : RegisterResponse)
  | logoutSuccess
  | logoutError (message : Option String)
  | duplicateSessionsCheckResult (data : DuplicateData)
  | refreshDetected (data : Option String)
  deriving DecidableEq, Repr

/-- The name of an arriving event. -/
def Inbound.event : Inbound → SocketEvent
  | .connect => .connect
  | .connectError _ => .connectError
  | .disconnect _ => .disconnect
  | .reconnect _ => .reconnect
  | .reconnectAttempt _ => .reconnectAttempt
  | .duplicateLoginDetected _ => .duplicateLoginDetected
  | .sessionRegistered _ => .sessionRegistered
  | .logoutSuccess => .logoutSuccess
  | .logoutError _ => .logoutError
  | .duplicateSessionsCheckResult _ => .duplicateSessionsCheckResult
  | .refreshDetected _ => .refreshDetected

/-- The `connect` listener (source lines 148-173), with the `userId` and `browserInfo` its
`initialize` call captured. -/
def onConnect (userId : Option String) (browserInfo : DeviceInfo) (w : World) : World :=
  let w := { w with eng.isConnecting := false, eng.connectionAttempts := 0 }
  -- Register session immediately on connect
  let w := (registerSession userId (some browserInfo) w).2
  -- Start health check and heartbeat intervals
  let w := startHealthCheck w
  let w := startHeartbeat w
  -- Clear any existing reconnect interval
  let w := match w.eng.reconnectInterval with
    | some id => { clearInterval id w with eng.reconnectInterval := none }
    | none => w
  let w := match w.eng.callbacks.onConnect with
    | some h => { w with trace := w.trace ++ [Effect.onConnect h] }
    | none => w
  -- Force check for duplicate sessions after connect
  setTimeout (.checkDuplicates userId) 1500 w

/-- The `connect_error` listener (source lines 175-182 and 389-394). -/
def onConnectError (error : String) (w : World) : World :=
  let w := startReconnectStrategy w
  match w.eng.callbacks.onError with
  | some h => { w with trace := w.trace ++ [Effect.onError h error] }
  | none => w

/-- The `duplicate_login_detected` listener (source lines 300-314). -/
def onDuplicateLoginDetected (data : DuplicateData) (w : World) : World :=
  -- Add a timestamp if one does not exist
  let timestamp :=
    if truthy data.timestamp then TimeStamp.given (data.timestamp.getD "")
    else TimeStamp.isoOf w.now
  -- Make sure deviceInfo exists
  let deviceInfo := data.deviceInfo.getD (getBrowserInfo w.userAgent)
  match w.eng.callbacks.onDuplicateLogin with
  | some h =>
    { w with trace := w.trace ++
        [Effect.onDuplicateLogin h
          { message := data.message, timestamp := timestamp, deviceInfo := deviceInfo }] }
  | none => w

/-- The `duplicate_sessions_check_result` listener (source lines 316-327). -/
def onDuplicateSessionsCheckResult (data : DuplicateData) (w : World) : World :=
  match data.hasDuplicates, w.eng.callbacks.onDuplicateLogin with
  | true, some h =>
    -- Format the duplicate login data
    let message := if truthy data.message then data.message else some "Phát hiện đăng nhập trùng lặp"
    let timestamp :=
      if truthy data.timestamp then TimeStamp.given (data.timestamp.getD "")
      else TimeStamp.isoOf w.now
    let deviceInfo := data.deviceInfo.getD (getBrowserInfo w.userAgent)
    { w with trace := w.trace ++
        [Effect.onDuplicateLogin h
          { message := message, timestamp := timestamp, deviceInfo := deviceInfo }] }
  | _, _ => w

/-- The `refresh_detected` listener (source lines 329-337); it does not read its payload. -/
def onRefreshDetected (w : World) : World :=
  if truthy w.eng.userId then setTimeout .reRegister 500 w else w

/-- The `session_registered` listener (source lines 339-361).  With no socket the call
`this.socket.emit` throws a `TypeError`, which ends the listener. -/
def onSessionRegistered (response : RegisterResponse) (w : World) : World :=
  -- Mark last registered time
  let w := { w with eng.lastRegistered := w.now }
  if response.success then
    match w.eng.socket with
    | some sid =>
      -- Force a heartbeat immediately after successful registration
      let w := emit sid (.heartbeat w.eng.userId w.eng.visitorId w.now) w
      -- Also check for duplicate sessions after a successful registration
      let w := setTimeout .checkDuplicatesCurrent 1000 w
      match w.eng.callbacks.onSessionRegistered with
      | some h => { w with trace := w.trace ++ [Effect.onSessionRegistered h response] }
      | none => w
    | none => { w with trace := w.trace ++ [Effect.uncaught "TypeError"] }
  else
    match w.eng.callbacks.onSessionRegistered with
    | some h => { w with trace := w.trace ++ [Effect.onSessionRegistered h response] }
    | none => w

/-- The `logout_success` listener (source lines 363-367). -/
def onLogoutSuccess (w : World) : World :=
  match w.eng.callbacks.onLogoutSuccess with
  | some h => { w with trace := w.trace ++ [Effect.onLogoutSuccess h] }
  | none => w

/-- The `logout_error` listener (source lines 369-371). -/
def onLogoutError (message : Option String) (w : World) : World :=
  logLine ("Logout error: " ++ message.getD "undefined") w

/-- The `disconnect` listener (source lines 373-387). -/
def onDisconnect (reason : String) (w : World) : World :=
  let w := match w.eng.callbacks.onDisconnect with
    | some h => { w with trace := w.trace ++ [Effect.onDisconnect h reason] }
    | none => w
  -- Auto-reconnect if not intentionally disconnected
  if reason == "io server disconnect" || reason == "transport close" || reason == "ping timeout" then
    let w := match w.eng.socket with
      | some sid => socketConnect sid w
      | none => w
    -- Start aggressive reconnection strategy
    startReconnectStrategy w
  else w

/-- The `reconnect` listener (source lines 396-402). -/
def onReconnect (attemptNumber : Nat) (w : World) : World :=
  let w := logLine ("Socket reconnected after " ++ toString attemptNumber ++ " attempts") w
  -- Re-register session after successful reconnection
  if truthy w.eng.userId then
    (registerSession w.eng.userId (some (getBrowserInfo w.userAgent)) w).2
  else w

/-- The `reconnect_attempt` listener (source lines 404-406). -/
def onReconnectAttempt (attemptNumber : Nat) (w : World) : World :=
  logLine ("Socket reconnection attempt #" ++ toString attemptNumber) w

/-- Run one listener closure on an arriving event. -/
def Handler.run : Handler → Inbound → World → World
  | .connect userId browserInfo, .connect, w => onConnect userId browserInfo w
  | .connectError, .connectError error, w => onConnectError error w
  | .disconnect, .disconnect reason, w => onDisconnect reason w
  | .reconnect, .reconnect n, w => onReconnect n w
  | .reconnectAttempt, .reconnectAttempt n, w => onReconnectAttempt n w
  | .duplicateLoginDetected, .duplicateLoginDetected data, w => onDuplicateLoginDetected data w
  | .sessionRegistered, .sessionRegistered response, w => onSessionRegistered response w
  | .logoutSuccess, .logoutSuccess, w => onLogoutSuccess w
  | .logoutError, .logoutError message, w => onLogoutError message w
  | .duplicateSessionsCheckResult, .duplicateSessionsCheckResult data, w =>
    onDuplicateSessionsCheckResult data w
  | .refreshDetected, .refreshDetected _, w => onRefreshDetected w
  | _, _, w => w

/-- The listeners registered on socket `sid` for the event `ev`, in registration order. -/
def listenersFor (sid : Nat) (ev : SocketEvent) (w : World) : List Handler :=
  match w.sockets[sid]? with
  | some s => s.listeners.filter (fun h => h.event == ev)
  | none => []

/-- The socket `sid` receives an event: the transport first updates its `connected` flag
(on `connect` and on `disconnect`), then the listeners registered for the event run in
registration order. -/
def receive (sid : Nat) (ev : Inbound) (w : World) : World :=
  let hs := listenersFor sid ev.event w
  let w := match ev with
    | .connect =>
      let up := fun (s : Socket) => { s with connected := true }
      { w with sockets := modifyAt up sid w.sockets }
    | .disconnect _ =>
      let down := fun (s : Socket) => { s with connected := false }
      { w with sockets := modifyAt down sid w.sockets }
    | _ => w
  hs.foldl (fun w h => h.run ev w) w

/-- The document fires `visibilitychange`: every listener registered for it runs
`handleVisibilityChange`. -/
def visibilityChange (hidden : Bool) (w : World) : World :=
  let w := { w with documentHidden := hidden }
  (w.docListeners.filter (fun l => l.type == "visibilitychange")).foldl
    (fun w _ => handleVisibilityChange w) w

/-- The number of socket objects that were created and not disconnected. -/
def openTransports (w : World) : Nat :=
  (w.sockets.filter (fun s => !s.closed)).length

/-- The clock advances by `dt` milliseconds. -/
def advance (dt : Nat) (w : World) : World :=
  { w with now := w.now + dt }

/-- The number of `register_session` messages in a trace. -/
def registerCount : List Effect → Nat
  | [] => 0
  | Effect.emit _ (Msg.registerSession _ _ _ _) :: rest => registerCount rest + 1
  | _ :: rest => registerCount rest

/-- A connected engine: `initialize("u1", "http://h")` on a page loaded at time 1000, the
fingerprint computation giving `fp`, then the `connect` event of the socket. -/
def connectedWorld : World :=
  receive 0 Inbound.connect (resumePending 0 ⟨some "fp", "r"⟩
    (initializeBegin (some "u1") (some "http://h") (World.initial 1000 "ua")).2)

/-- The connected engine after `setCallbacks` registered handler 7 for `onDuplicateLogin`. -/
def listeningWorld : World :=
  setCallbacks
    { onDuplicateLogin := some (some 7), onSessionRegistered := none, onLogoutSuccess := none,
      onDisconnect := none, onConnect := none, onError := none } connectedWorld

/-- The connected engine after `setCallbacks` registered one handler for each callback. -/
def observedWorld : World :=
  setCallbacks
    { onDuplicateLogin := some (some 1), onSessionRegistered := some (some 2),
      onLogoutSuccess := some (some 3), onDisconnect := some (some 4),
      onConnect := some (some 5), onError := some (some 6) } connectedWorld

/-- An engine awaiting its fingerprint: `initialize("u1", "http://h")` was called at time
1000 and is suspended; there is no socket yet. -/
def connectingWorld : World :=
  (initializeBegin (some "u1") (some "http://h") (World.initial 1000 "ua")).2

/-- An engine whose socket is made but not yet connected, on which `logout("u1")` is
called. -/
def loggedOutBeforeConnect : World :=
  logout (some "u1") (resumePending 0 ⟨some "fp", "r"⟩ connectingWorld)

/-- A run with two overlapping `initialize` calls: both calls are made at time 1000, the
first one resumes and makes socket 0, `logout("u1")` is called, and 500 ms later the
`cleanup` that `logout` scheduled runs while the second call is still suspended. -/
def loggedOutAndCleaned : World :=
  fireTimeout 1 (advance 500 (logout (some "u1") (resumePending 0 ⟨some "fp", "r"⟩
    (initializeBegin (some "u1") (some "http://h") connectingWorld).2)))

/-- UTF-16 code units of one character. -/
def utf16Char (c : Char) : List Nat :=
  if c.toNat < 65536 then [c.toNat]
  else [55296 + (c.toNat - 65536) / 1024, 56320 + (c.toNat - 65536) % 1024]

/-- UTF-16 code units of a list of characters. -/
def utf16List : List Char → List Nat
  | [] => []
  | c :: cs => utf16Char c ++ utf16List cs

/-- The code units of a string, which are what `substring` counts. -/
def utf16 (s : String) : List Nat := utf16List s.data

/-- The `hasCallbacks` object of the status snapshot. -/
structure HasCallbacks where
  onDuplicateLogin : Bool
  onSessionRegistered : Bool
  onLogoutSuccess : Bool
  onDisconnect : Bool
  deriving DecidableEq, Repr

/-- The object returned by `getStatus`.  `visitorId` is given by its code units;
`timeSinceLastRegistered` holds the number of milliseconds `d` of the string
`d / 1000 + ' seconds'`, and `none` for `'never'`. -/
structure Status where
  hasSocket : Bool
  connected : Bool
  socketId : Option String
  userId : Option String
  visitorId : Option (List Nat)
  lastRegistered : Option TimeStamp
  timeSinceLastRegistered : Option Int
  isConnecting : Bool
  connectionAttempts : Nat
  hasCallbacks : HasCallbacks
  deriving DecidableEq, Repr

/-- The method `getStatus` (source lines 503-521); `socketId` is the `id` property of the
socket object, which the transport sets. -/
def getStatus (socketId : Option String) (w : World) : Status :=
  { hasSocket := w.eng.socket.isSome,
    connected := socketConnected w,
    socketId := if w.eng.socket.isSome then socketId else none,
    userId := w.eng.userId,
    visitorId :=
      if truthy w.eng.visitorId then
        some ((utf16 (w.eng.visitorId.getD "")).take 10 ++ utf16 "...")
      else none,
    lastRegistered :=
      if w.eng.lastRegistered ≠ 0 then some (TimeStamp.isoOf w.eng.lastRegistered) else none,
    timeSinceLastRegistered :=
      if w.eng.lastRegistered ≠ 0 then some ((w.now : Int) - (w.eng.lastRegistered : Int))
      else none,
    isConnecting := w.eng.isConnecting,
    connectionAttempts := w.eng.connectionAttempts,
    hasCallbacks :=
      { onDuplicateLogin := w.eng.callbacks.onDuplicateLogin.isSome,
        onSessionRegistered := w.eng.callbacks.onSessionRegistered.isSome,
        onLogoutSuccess := w.eng.callbacks.onLogoutSuccess.isSome,
        onDisconnect := w.eng.callbacks.onDisconnect.isSome } }

/-- The user agent of an Android tablet (Chrome on a Samsung Galaxy Tab A). -/
def androidTabletUA : String :=
  "Mozilla/5.0 (Linux; Android 9; SM-T510) AppleWebKit/537.36 (KHTML, like Gecko) Chrome/80.0.3987.119 Safari/537.36"

/-- The handle the engine records for a timer family. -/
def handleOf (e : Engine) : TimerFamily → Option Nat
  | .heartbeat => e.heartbeatInterval
  | .healthCheck => e.healthCheckInterval
  | .reconnect => e.reconnectInterval

/-- The active interval timers of one family. -/
def activeTimers (f : TimerFamily) (w : World) : List Interval :=
  w.intervals.filter (fun t => t.family == f)

/-- Single instance per timer family: every active interval timer is the one recorded in
the handle of its family, and each family has at most one active timer. -/
def SingleInstance (w : World) : Prop :=
  (∀ t ∈ w.intervals, handleOf w.eng t.family = some t.id) ∧
  ∀ f : TimerFamily, (activeTimers f w).length ≤ 1

/-- The operations on the timers: the three start methods, the `connect` listener, the
firing of an active interval timer, and `cleanup`. -/
inductive TimerOp where
  | startHeartbeat
  | startHealthCheck
  | startReconnectStrategy
  | connect (userId : Option String) (browserInfo : DeviceInfo)
  | tick (id : Nat)
  | cleanup
  deriving DecidableEq, Repr

/-- Run one timer operation. -/
def TimerOp.run : TimerOp → World → World
  | .startHeartbeat, w => DuplicateLogin.startHeartbeat w
  | .startHealthCheck, w => DuplicateLogin.startHealthCheck w
  | .startReconnectStrategy, w => DuplicateLogin.startReconnectStrategy w
  | .connect userId browserInfo, w => onConnect userId browserInfo w
  | .tick id, w => fireInterval id w
  | .cleanup, w => DuplicateLogin.cleanup w

/-- Run a sequence of timer operations, the first one first. -/
def runOps (ops : List TimerOp) (w : World) : World :=
  ops.foldl (fun w op => op.run w) w

/-- The interval timers left by `if (handle) clearInterval(handle)`. -/
def cleared (handle : Option Nat) (ts : List Interval) : List Interval :=
  match handle with
  | some a => ts.filter (fun t => t.id != a)
  | none => ts

/-- A run with two overlapping `initialize` calls on an engine with all callbacks
registered: both calls are made at time 1000, the first one resumes and makes socket 0,
socket 0 connects and the engine registers on it, the second call resumes and makes socket 1,
which replaces socket 0 in `this.socket` without disconnecting it, and `cleanup` is called.
Socket 0 is still connected and still has its listeners; the engine has no socket. -/
def leakedSocketWorld : World :=
  cleanup (resumePending 0 ⟨some "fp", "r"⟩ (receive 0 Inbound.connect
    (resumePending 0 ⟨some "fp", "r"⟩
      (initializeBegin (some "u1") (some "http://h")
        (initializeBegin (some "u1") (some "http://h")
          (setCallbacks
            { onDuplicateLogin := some (some 1), onSessionRegistered := some (some 2),
              onLogoutSuccess := some (some 3), onDisconnect := some (some 4),
              onConnect := some (some 5), onError := some (some 6) }
            (World.initial 1000 "ua"))).2).2)))

/-! ## Auxiliary facts -/

theorem fn_lt_freshFn (ls : List DocListener) : ∀ l ∈ ls, l.fn < freshFn ls := by
  induction ls with
  | nil => intro l hl; cases hl
  | cons a as ih =>
    intro l hl
    simp only [freshFn, List.map_cons, List.foldr_cons] at ih ⊢
    rcases List.mem_cons.mp hl with h | h
    · subst h; omega
    · have := ih l h; omega

theorem filter_fresh (type : String) (ls : List DocListener) :
    ls.filter (fun l => !(l.type == type && l.fn == freshFn ls)) = ls := by
  apply List.filter_eq_self.mpr
  intro l hl
  have := fn_lt_freshFn ls l hl
  have hne : (l.fn == freshFn ls) = false := by
    simp only [beq_eq_false_iff_ne, ne_eq]; omega
  simp [hne]

theorem cleanup_of_clean (w : World) (h1 : w.eng.healthCheckInterval = none)
    (h2 : w.eng.reconnectInterval = none) (h3 : w.eng.heartbeatInterval = none)
    (h4 : w.eng.socket = none) (h5 : w.eng.isConnecting = false)
    (h6 : w.eng.connectionAttempts = 0) : cleanup w = w := by
  obtain ⟨eng, sockets, intervals, timeouts, timerSeq, docs, wins, store, pending, now, ua, hid, tr⟩ := w
  obtain ⟨so, vi, hc, rc, hb, us, bu, lr, ic, ca, cb⟩ := eng
  simp only at h1 h2 h3 h4 h5 h6
  subst h1 h2 h3 h4 h5 h6
  simp only [cleanup, removeEventListener, filter_fresh]

theorem cleanup_eng (w : World) :
    (cleanup w).eng =
      { w.eng with socket := none
                   healthCheckInterval := none
                   reconnectInterval := none
                   heartbeatInterval := none
                   isConnecting := false
                   connectionAttempts := 0 } := by
  obtain ⟨eng, sockets, intervals, timeouts, timerSeq, docs, wins, store, pending, now, ua, hid, tr⟩ := w
  obtain ⟨so, vi, hc, rc, hb, us, bu, lr, ic, ca, cb⟩ := eng
  cases so <;> cases hc <;> cases rc <;> cases hb <;>
    simp [cleanup, removeEventListener, clearInterval, socketOff, socketDisconnect]

theorem cleanup_docListeners (w : World) : (cleanup w).docListeners = w.docListeners := by
  obtain ⟨eng, sockets, intervals, timeouts, timerSeq, docs, wins, store, pending, now, ua, hid, tr⟩ := w
  obtain ⟨so, vi, hc, rc, hb, us, bu, lr, ic, ca, cb⟩ := eng
  cases so <;> cases hc <;> cases rc <;> cases hb <;>
    simp only [cleanup, removeEventListener, clearInterval, socketOff, socketDisconnect,
      filter_fresh]

theorem modifyAt_closed_filter (f : Socket → Socket) (hf : ∀ s, (f s).closed = s.closed) (n : Nat)
    (l : List Socket) :
    ((modifyAt f n l).filter (fun s => !s.closed)).length = (l.filter (fun s => !s.closed)).length := by
  induction l generalizing n with
  | nil => cases n <;> rfl
  | cons a as ih =>
    cases n with
    | zero => simp only [modifyAt, List.filter_cons, hf]; split <;> simp
    | succ m => simp only [modifyAt, List.filter_cons]; split <;> simp [ih]

theorem openTransports_socketOn (sid : Nat) (h : Handler) (w : World) :
    openTransports (socketOn sid h w) = openTransports w := by
  simp only [openTransports, socketOn]
  apply modifyAt_closed_filter
  intro s; rfl

theorem openTransports_socketOff (sid : Nat) (ev : SocketEvent) (w : World) :
    openTransports (socketOff sid ev w) = openTransports w := by
  simp only [openTransports, socketOff]
  apply modifyAt_closed_filter
  intro s; rfl

theorem resolveFingerprint_sockets (u : Option String) (run : FingerprintRun) (w : World) :
    (resolveFingerprint u run w).sockets = w.sockets := by
  unfold resolveFingerprint
  cases run.result with
  | some v => rfl
  | none => simp only []; split_ifs <;> rfl

theorem setupEventListeners_openTransports (w : World) :
    openTransports (setupEventListeners w) = openTransports w := by
  unfold setupEventListeners
  cases w.eng.socket with
  | none => rfl
  | some sid => simp only [openTransports_socketOn, openTransports_socketOff]

theorem setupVisibilityHandling_openTransports (w : World) :
    openTransports (setupVisibilityHandling w) = openTransports w := by
  simp only [setupVisibilityHandling, addEventListener, openTransports]
  split <;> rfl

theorem openTransports_initializeResume (p : PendingInit) (run : FingerprintRun) (w : World) :
    openTransports (initializeResume p run w).2 = openTransports w + 1 := by
  simp only [initializeResume, setupVisibilityHandling_openTransports,
    setupEventListeners_openTransports, openTransports_socketOn]
  simp [openTransports, io, resolveFingerprint_sockets]

theorem resolveFingerprint_pending (u : Option String) (run : FingerprintRun) (w : World) :
    (resolveFingerprint u run w).pending = w.pending := by
  unfold resolveFingerprint
  cases run.result with
  | some v => rfl
  | none => simp only []; split_ifs <;> rfl

theorem setupEventListeners_pending (w : World) :
    (setupEventListeners w).pending = w.pending := by
  unfold setupEventListeners
  cases w.eng.socket with
  | none => rfl
  | some sid => simp only [socketOn, socketOff]

theorem setupVisibilityHandling_pending (w : World) :
    (setupVisibilityHandling w).pending = w.pending := by
  simp only [setupVisibilityHandling, addEventListener]
  split <;> rfl

theorem initializeResume_pending (p : PendingInit) (run : FingerprintRun) (w : World) :
    (initializeResume p run w).2.pending = w.pending := by
  simp only [initializeResume, setupVisibilityHandling_pending, setupEventListeners_pending]
  simp [socketOn, io, resolveFingerprint_pending]

theorem openTransports_resumePending (i : Nat) (run : FingerprintRun) (w : World)
    (h : i < w.pending.length) :
    openTransports (resumePending i run w) = openTransports w + 1 ∧
      (resumePending i run w).pending = w.pending.eraseIdx i := by
  unfold resumePending
  rw [List.getElem?_eq_getElem h]
  simp only [openTransports_initializeResume, initializeResume_pending]
  exact ⟨rfl, trivial⟩

theorem cleanup_pending (w : World) : (cleanup w).pending = w.pending := by
  obtain ⟨eng, sockets, intervals, timeouts, timerSeq, docs, wins, store, pending, now, ua, hid, tr⟩ := w
  obtain ⟨so, vi, hc, rc, hb, us, bu, lr, ic, ca, cb⟩ := eng
  cases so <;> cases hc <;> cases rc <;> cases hb <;>
    simp only [cleanup, removeEventListener, clearInterval, socketOff, socketDisconnect]

theorem cleanup_openTransports (w : World) (h : w.eng.socket = none) :
    openTransports (cleanup w) = openTransports w := by
  obtain ⟨eng, sockets, intervals, timeouts, timerSeq, docs, wins, store, pending, now, ua, hid, tr⟩ := w
  obtain ⟨so, vi, hc, rc, hb, us, bu, lr, ic, ca, cb⟩ := eng
  simp only at h
  subst h
  cases hc <;> cases rc <;> cases hb <;>
    simp only [cleanup, removeEventListener, clearInterval, openTransports]

theorem initializeBegin_proceeds (userId backendUrl : Option String) (w : World)
    (hu : truthy userId = true) (he : truthy backendUrl = true)
    (hc : w.eng.isConnecting = false) :
    (initializeBegin userId backendUrl w).1 = InitResult.suspended ∧
    (initializeBegin userId backendUrl w).2.pending
      = w.pending ++ [{ userId := userId, backendUrl := backendUrl }] ∧
    (initializeBegin userId backendUrl w).2.eng.isConnecting = false ∧
    (initializeBegin userId backendUrl w).2.eng.socket = none ∧
    (w.eng.socket = none →
      openTransports (initializeBegin userId backendUrl w).2 = openTransports w) := by
  simp only [initializeBegin, hu, he, hc, Bool.not_true, Bool.or_self, Bool.false_eq_true,
    if_false, cleanup_pending, cleanup_eng, true_and]
  intro hs
  exact cleanup_openTransports _ hs

theorem getItem_setItem (key value : String) (w : World) :
    getItem key (setItem key value w) = some value := by
  have h : List.find? (fun kv => kv.1 == key)
      (List.filter (fun kv : String × String => kv.1 != key) w.sessionStorage) = none := by
    apply List.find?_eq_none.mpr
    intro kv hkv
    have := (List.mem_filter.mp hkv).2
    simpa using this
  simp [getItem, setItem, List.find?_append, h]

theorem truthy_some_getD (o : Option String) (h : truthy o = true) : some (o.getD "") = o := by
  cases o with
  | none => simp [truthy] at h
  | some s => rfl

theorem resolveFingerprint_success (u : Option String) (v e : String) (w : World) :
    (resolveFingerprint u ⟨some v, e⟩ w).eng.visitorId = some v ∧
    getItem "dlm_fingerprint" (resolveFingerprint u ⟨some v, e⟩ w) = some v := by
  simp only [resolveFingerprint, getItem_setItem, and_true]
  rfl

theorem resolveFingerprint_failure (u : Option String) (e : String) (w : World) :
    (resolveFingerprint u ⟨none, e⟩ w).eng.visitorId
      = (if truthy (getItem "dlm_fingerprint" w) then getItem "dlm_fingerprint" w
         else some (fallbackFingerprint u w.now e)) ∧
    getItem "dlm_fingerprint" (resolveFingerprint u ⟨none, e⟩ w)
      = (if truthy (getItem "dlm_fingerprint" w) then getItem "dlm_fingerprint" w
         else some (fallbackFingerprint u w.now e)) := by
  have hg : ∀ (x : Engine) (t : List Effect),
      getItem "dlm_fingerprint" { w with eng := x, trace := t } = getItem "dlm_fingerprint" w :=
    fun _ _ => rfl
  by_cases h : truthy (getItem "dlm_fingerprint" w) = true
  · simp only [resolveFingerprint, logLine, hg, h, if_true, Bool.not_true, Bool.false_eq_true,
      if_false, truthy_some_getD _ h, and_self]
  · have h' : truthy (getItem "dlm_fingerprint" w) = false := by simpa using h
    simp only [resolveFingerprint, logLine, hg, h', Bool.false_eq_true, if_false, Bool.not_false,
      if_true]
    exact ⟨rfl, getItem_setItem _ _ _⟩

theorem resolveFingerprint_stored (u : Option String) (run : FingerprintRun) (w : World) :
    getItem "dlm_fingerprint" (resolveFingerprint u run w)
      = (resolveFingerprint u run w).eng.visitorId := by
  obtain ⟨r, e⟩ := run
  cases r with
  | some v => rw [(resolveFingerprint_success u v e w).1, (resolveFingerprint_success u v e w).2]
  | none => rw [(resolveFingerprint_failure u e w).1, (resolveFingerprint_failure u e w).2]

theorem registerCount_append (a b : List Effect) :
    registerCount (a ++ b) = registerCount a + registerCount b := by
  induction a with
  | nil => simp [registerCount]
  | cons x xs ih =>
    cases x with
    | emit sid m => cases m <;> simp [registerCount, ih]; omega
    | _ => simp [registerCount, ih]

theorem cleanup_registerCount (w : World) :
    registerCount (cleanup w).trace = registerCount w.trace := by
  obtain ⟨eng, sockets, intervals, timeouts, timerSeq, docs, wins, store, pending, now, ua, hid, tr⟩ := w
  obtain ⟨so, vi, hc, rc, hb, us, bu, lr, ic, ca, cb⟩ := eng
  cases so <;> cases hc <;> cases rc <;> cases hb <;>
    simp [cleanup, removeEventListener, clearInterval, socketOff, socketDisconnect,
      registerCount_append, registerCount]

theorem initializeBegin_registerCount (userId backendUrl : Option String) (w : World) :
    registerCount (initializeBegin userId backendUrl w).2.trace = registerCount w.trace := by
  unfold initializeBegin
  split_ifs
  · simp [logLine, registerCount_append, registerCount]
  · simp [logLine, registerCount_append, registerCount]
  · simp only [cleanup_registerCount]

theorem registerSession_emits (userId : Option String) (browserInfo : Option DeviceInfo)
    (w : World) (sid : Nat) (hu : truthy userId = true) (hs : w.eng.socket = some sid)
    (hv : truthy w.eng.visitorId = true) :
    registerSession userId browserInfo w
      = (true, { w with eng.lastRegistered := w.now
                        trace := w.trace ++
                          [Effect.emit sid (Msg.registerSession userId w.eng.visitorId
                            (browserInfo.getD (getBrowserInfo w.userAgent)) w.now)] }) := by
  simp [registerSession, hu, hs, hv, emit]

theorem getElem?_modifyAt {α : Type} (f : α → α) (n : Nat) (l : List α) :
    (modifyAt f n l)[n]? = (l[n]?).map f := by
  induction l generalizing n with
  | nil => cases n <;> simp [modifyAt]
  | cons a as ih =>
    cases n with
    | zero => simp [modifyAt]
    | succ m => simpa [modifyAt] using ih m

theorem setupEventListeners_listeners (w : World) (sid : Nat) (s : Socket)
    (hs : w.eng.socket = some sid) (hx : w.sockets[sid]? = some s) :
    (setupEventListeners w).sockets[sid]? =
      some { s with listeners :=
        s.listeners.filter (fun h => h.event == SocketEvent.connect) ++
          [Handler.duplicateLoginDetected, Handler.duplicateSessionsCheckResult,
           Handler.refreshDetected, Handler.sessionRegistered, Handler.logoutSuccess,
           Handler.logoutError, Handler.disconnect, Handler.connectError, Handler.reconnect,
           Handler.reconnectAttempt] } := by
  simp only [setupEventListeners, hs, socketOn, socketOff, getElem?_modifyAt, hx, Option.map_some',
    List.filter_filter, List.append_assoc, List.singleton_append, List.nil_append, List.cons_append]
  congr 2
  congr 1
  apply List.filter_congr
  intro h _
  cases h <;> rfl

theorem setupEventListeners_frame (w : World) :
    setupEventListeners w = { w with sockets := (setupEventListeners w).sockets } := by
  unfold setupEventListeners
  cases w.eng.socket with
  | none => rfl
  | some sid => simp only [socketOn, socketOff]

theorem listenersFor_setupEventListeners (w : World) (sid : Nat) (s : Socket) (ev : SocketEvent)
    (hs : w.eng.socket = some sid) (hx : w.sockets[sid]? = some s)
    (hev : ev ≠ SocketEvent.connect) :
    listenersFor sid ev (setupEventListeners w) =
      [Handler.duplicateLoginDetected, Handler.duplicateSessionsCheckResult,
       Handler.refreshDetected, Handler.sessionRegistered, Handler.logoutSuccess,
       Handler.logoutError, Handler.disconnect, Handler.connectError, Handler.reconnect,
       Handler.reconnectAttempt].filter (fun h => h.event == ev) := by
  have hnil : (s.listeners.filter (fun h => h.event == SocketEvent.connect)).filter
      (fun h => h.event == ev) = [] := by
    rw [List.filter_filter]
    apply List.filter_eq_nil_iff.mpr
    intro h _
    cases h <;> cases ev <;> simp [Handler.event] at hev ⊢
  simp only [listenersFor, setupEventListeners_listeners w sid s hs hx, List.filter_append, hnil,
    List.nil_append]

theorem socketConnected_congr (a b : World) (h1 : a.eng.socket = b.eng.socket)
    (h2 : a.sockets = b.sockets) : socketConnected a = socketConnected b := by
  simp only [socketConnected, h1, h2]

theorem setupEventListeners_eng (w : World) : (setupEventListeners w).eng = w.eng := by
  rw [setupEventListeners_frame w]

theorem socketConnected_setupEventListeners (w : World) (sid : Nat)
    (hs : w.eng.socket = some sid) (hx : sid < w.sockets.length) :
    socketConnected (setupEventListeners w) = socketConnected w := by
  have hx' := List.getElem?_eq_getElem hx
  have hl := setupEventListeners_listeners w sid _ hs hx'
  simp only [socketConnected, setupEventListeners_eng, hs, hl, hx']

theorem fireTimeout_fresh (w : World) (t : Timeout) (h : ∀ u ∈ w.timeouts, u.id ≠ t.id)
    (hdue : t.due ≤ w.now) :
    fireTimeout t.id { w with timeouts := w.timeouts ++ [t] } = t.task.run w := by
  have hn : w.timeouts.find? (fun u => u.id == t.id) = none := by
    apply List.find?_eq_none.mpr
    intro u hu
    simpa using h u hu
  have hk : w.timeouts.filter (fun u => u.id != t.id) = w.timeouts := by
    apply List.filter_eq_self.mpr
    intro u hu
    simpa using h u hu
  simp [fireTimeout, List.find?_append, hn, hdue, List.filter_append, hk]

theorem receive_sessionRegistered (w : World) (sid : Nat) (response : RegisterResponse)
    (hs : w.eng.socket = some sid) (hx : sid < w.sockets.length) :
    receive sid (Inbound.sessionRegistered response) (setupEventListeners w)
      = onSessionRegistered response (setupEventListeners w) := by
  have h := listenersFor_setupEventListeners w sid _ SocketEvent.sessionRegistered hs
    (List.getElem?_eq_getElem hx) (by decide)
  simp only [receive, Inbound.event, h]
  simp [Handler.event, Handler.run]

theorem onSessionRegistered_success (w : World) (sid cb : Nat) (message : Option String)
    (hs : w.eng.socket = some sid) (hcb : w.eng.callbacks.onSessionRegistered = some cb) :
    onSessionRegistered ⟨true, message⟩ w
      = { w with eng.lastRegistered := w.now
                 timerSeq := w.timerSeq + 1
                 timeouts := w.timeouts ++
                   [{ id := w.timerSeq + 1, due := w.now + 1000,
                      task := TimeoutTask.checkDuplicatesCurrent }]
                 trace := w.trace ++
                   [Effect.emit sid (Msg.heartbeat w.eng.userId w.eng.visitorId w.now),
                    Effect.onSessionRegistered cb ⟨true, message⟩] } := by
  simp [onSessionRegistered, hs, hcb, emit, setTimeout]

theorem onSessionRegistered_failure (w : World) (cb : Nat) (message : Option String)
    (hcb : w.eng.callbacks.onSessionRegistered = some cb) :
    onSessionRegistered ⟨false, message⟩ w
      = { w with eng.lastRegistered := w.now
                 trace := w.trace ++ [Effect.onSessionRegistered cb ⟨false, message⟩] } := by
  simp [onSessionRegistered, hcb]

theorem checkForDuplicateSessions_emits (w : World) (sid : Nat) (userId : Option String)
    (hs : w.eng.socket = some sid) (hu : truthy userId = true)
    (hc : socketConnected w = true) :
    checkForDuplicateSessions userId w
      = emit sid (Msg.checkDuplicateSessions userId w.eng.visitorId w.now) w := by
  simp [checkForDuplicateSessions, hs, hu, hc]

theorem fire_check_after_registration (w : World) (sid cb : Nat) (message : Option String)
    (hs : w.eng.socket = some sid) (hcb : w.eng.callbacks.onSessionRegistered = some cb)
    (hconn : socketConnected w = true) (hu : truthy w.eng.userId = true)
    (hfresh : ∀ t ∈ w.timeouts, t.id ≤ w.timerSeq) :
    (fireTimeout (w.timerSeq + 1)
        (advance 1000 (onSessionRegistered ⟨true, message⟩ w))).trace
      = w.trace ++ [Effect.emit sid (Msg.heartbeat w.eng.userId w.eng.visitorId w.now),
                    Effect.onSessionRegistered cb ⟨true, message⟩,
                    Effect.emit sid (Msg.checkDuplicateSessions w.eng.userId w.eng.visitorId
                      (w.now + 1000))] := by
  rw [onSessionRegistered_success w sid cb message hs hcb]
  have key : ∀ v : World,
      v = { w with
            eng.lastRegistered := w.now
            timerSeq := w.timerSeq + 1
            now := w.now + 1000
            trace := w.trace ++
              [Effect.emit sid (Msg.heartbeat w.eng.userId w.eng.visitorId w.now),
               Effect.onSessionRegistered cb ⟨true, message⟩] } →
      (fireTimeout (w.timerSeq + 1)
        { v with timeouts := v.timeouts ++
            [{ id := w.timerSeq + 1, due := w.now + 1000,
               task := TimeoutTask.checkDuplicatesCurrent }] }).trace
        = w.trace ++ [Effect.emit sid (Msg.heartbeat w.eng.userId w.eng.visitorId w.now),
                      Effect.onSessionRegistered cb ⟨true, message⟩,
                      Effect.emit sid (Msg.checkDuplicateSessions w.eng.userId w.eng.visitorId
                        (w.now + 1000))] := by
    intro v hv
    have hvs : v.eng.socket = some sid := by rw [hv]; exact hs
    have hvu : truthy v.eng.userId = true := by rw [hv]; exact hu
    have hvc : socketConnected v = true := by
      rw [← hconn]
      exact socketConnected_congr _ _ (by rw [hv]) (by rw [hv])
    have hvt : ∀ u ∈ v.timeouts, u.id ≠
        (⟨w.timerSeq + 1, w.now + 1000, TimeoutTask.checkDuplicatesCurrent⟩ : Timeout).id := by
      intro u hu'
      rw [hv] at hu'
      have := hfresh u hu'
      simp only [ne_eq]
      omega
    have hfire : fireTimeout (w.timerSeq + 1)
        { v with timeouts := v.timeouts ++
            [{ id := w.timerSeq + 1, due := w.now + 1000,
               task := TimeoutTask.checkDuplicatesCurrent }] }
        = checkForDuplicateSessions v.eng.userId v :=
      fireTimeout_fresh v ⟨w.timerSeq + 1, w.now + 1000, TimeoutTask.checkDuplicatesCurrent⟩ hvt
        (by rw [hv])
    rw [hfire, checkForDuplicateSessions_emits v sid _ hvs hvu hvc, hv]
    simp only [emit, List.append_assoc, List.cons_append, List.nil_append]
  exact key _ rfl

theorem utf16Char_ne_nil (c : Char) : utf16Char c ≠ [] := by
  unfold utf16Char
  split <;> simp

theorem utf16_eq_nil_iff (s : String) : utf16 s = [] ↔ s.data = [] := by
  unfold utf16
  cases s.data with
  | nil => simp [utf16List]
  | cons c cs => simp [utf16List, utf16Char_ne_nil]

theorem take_ten_eq_nil_iff (l : List Nat) : l.take 10 = [] ↔ l = [] := by
  cases l <;> simp

theorem truthy_iff_utf16 (s : String) : truthy (some s) = true ↔ utf16 s ≠ [] := by
  rw [Ne, utf16_eq_nil_iff]
  simp [truthy]

theorem cleared_subset (handle : Option Nat) (ts : List Interval) :
    ∀ t ∈ cleared handle ts, t ∈ ts := by
  intro t ht
  cases handle with
  | none => exact ht
  | some a => exact (List.mem_filter.mp ht).1

theorem cleared_family_length (handle : Option Nat) (ts : List Interval) (g : TimerFamily) :
    ((cleared handle ts).filter (fun t => t.family == g)).length
      ≤ (ts.filter (fun t => t.family == g)).length := by
  cases handle with
  | none => exact le_refl _
  | some a =>
    simp only [cleared, List.filter_filter]
    apply List.Sublist.length_le
    apply List.monotone_filter_right
    intro t ht
    simp only [Bool.and_eq_true] at ht
    exact ht.1

theorem cleared_no_family (w : World) (f : TimerFamily)
    (h1 : ∀ t ∈ w.intervals, handleOf w.eng t.family = some t.id) :
    ∀ t ∈ cleared (handleOf w.eng f) w.intervals, t.family ≠ f := by
  intro t ht hfam
  cases hf : handleOf w.eng f with
  | none =>
    rw [hf] at ht
    have := h1 t ht
    rw [hfam, hf] at this
    cases this
  | some a =>
    rw [hf] at ht
    have hm := List.mem_filter.mp ht
    have := h1 t hm.1
    rw [hfam, hf] at this
    have hne := hm.2
    simp only [bne_iff_ne, ne_eq] at hne
    exact hne (Option.some.inj this).symm

theorem single_frame (w v : World) (hi : v.intervals = w.intervals)
    (hh : ∀ g, handleOf v.eng g = handleOf w.eng g) (h : SingleInstance w) :
    SingleInstance v := by
  obtain ⟨h1, h2⟩ := h
  refine ⟨?_, ?_⟩
  · intro t ht
    rw [hh]
    exact h1 t (hi ▸ ht)
  · intro f
    simp only [activeTimers, hi]
    exact h2 f

theorem single_start (w v : World) (f : TimerFamily) (n p : Nat) (h : SingleInstance w)
    (hi : v.intervals
      = cleared (handleOf w.eng f) w.intervals ++ [{ id := n, family := f, period := p }])
    (hh : ∀ g, handleOf v.eng g = if g = f then some n else handleOf w.eng g) :
    SingleInstance v := by
  obtain ⟨h1, h2⟩ := h
  have hno := cleared_no_family w f h1
  refine ⟨?_, ?_⟩
  · intro t ht
    rw [hi] at ht
    rcases List.mem_append.mp ht with ht | ht
    · rw [hh, if_neg (hno t ht)]
      exact h1 t (cleared_subset _ _ t ht)
    · simp only [List.mem_singleton] at ht
      subst ht
      rw [hh, if_pos rfl]
  · intro g
    simp only [activeTimers, hi, List.filter_append, List.length_append]
    by_cases hg : g = f
    · subst hg
      have hnil : (cleared (handleOf w.eng g) w.intervals).filter (fun t => t.family == g)
          = [] := by
        apply List.filter_eq_nil_iff.mpr
        intro t ht
        simpa using hno t ht
      simp [hnil]
    · have hne : (f == g) = false := by
        simp only [beq_eq_false_iff_ne, ne_eq]
        exact fun h => hg h.symm
      have hl := cleared_family_length (handleOf w.eng f) w.intervals g
      have := h2 g
      simp only [activeTimers] at this
      simp only [List.filter_cons, hne, Bool.false_eq_true, if_false, List.filter_nil,
        List.length_nil, add_zero]
      omega

theorem single_null (w v : World) (f : TimerFamily) (h : SingleInstance w)
    (hi : v.intervals = cleared (handleOf w.eng f) w.intervals)
    (hh : ∀ g, handleOf v.eng g = if g = f then none else handleOf w.eng g) :
    SingleInstance v := by
  obtain ⟨h1, h2⟩ := h
  have hno := cleared_no_family w f h1
  refine ⟨?_, ?_⟩
  · intro t ht
    rw [hi] at ht
    rw [hh, if_neg (hno t ht)]
    exact h1 t (cleared_subset _ _ t ht)
  · intro g
    have := h2 g
    have hl := cleared_family_length (handleOf w.eng f) w.intervals g
    simp only [activeTimers] at this ⊢
    rw [hi]
    omega

theorem single_startHeartbeat (w : World) (h : SingleInstance w) :
    SingleInstance (startHeartbeat w) := by
  apply single_start w _ TimerFamily.heartbeat (w.timerSeq + 1) 15000 h
  · unfold startHeartbeat
    cases hb : w.eng.heartbeatInterval <;> simp [setInterval, clearInterval, cleared, handleOf, hb]
  · intro g
    unfold startHeartbeat
    cases hb : w.eng.heartbeatInterval <;> cases g <;>
      simp [setInterval, clearInterval, handleOf]

theorem startHealthCheck_intervals (w : World) :
    (startHealthCheck w).intervals
      = cleared w.eng.healthCheckInterval w.intervals ++
          [{ id := w.timerSeq + 1, family := TimerFamily.healthCheck, period := 20000 }] := by
  unfold startHealthCheck
  cases hc : w.eng.healthCheckInterval <;> cases hs : w.eng.socket <;>
    simp only [setInterval, clearInterval, cleared, hs] <;>
    split_ifs <;> rfl

theorem startHealthCheck_eng (w : World) :
    (startHealthCheck w).eng = { w.eng with healthCheckInterval := some (w.timerSeq + 1) } := by
  unfold startHealthCheck
  cases hc : w.eng.healthCheckInterval <;> cases hs : w.eng.socket <;>
    simp only [setInterval, clearInterval, hs] <;>
    split_ifs <;> simp [emit, hs]

theorem single_startHealthCheck (w : World) (h : SingleInstance w) :
    SingleInstance (startHealthCheck w) := by
  apply single_start w _ TimerFamily.healthCheck (w.timerSeq + 1) 20000 h
  · rw [startHealthCheck_intervals]
    rfl
  · intro g
    rw [startHealthCheck_eng]
    cases g <;> simp [handleOf]

theorem single_startReconnectStrategy (w : World) (h : SingleInstance w) :
    SingleInstance (startReconnectStrategy w) := by
  unfold startReconnectStrategy
  cases hr : w.eng.reconnectInterval with
  | some id => exact h
  | none =>
    apply single_start w _ TimerFamily.reconnect (w.timerSeq + 1) 8000 h
    · simp [setInterval, cleared, handleOf, hr]
    · intro g
      cases g <;> simp [setInterval, handleOf]

theorem cleanup_intervals (w : World) :
    (cleanup w).intervals
      = cleared w.eng.heartbeatInterval (cleared w.eng.reconnectInterval
          (cleared w.eng.healthCheckInterval w.intervals)) := by
  obtain ⟨eng, sockets, intervals, timeouts, timerSeq, docs, wins, store, pending, now, ua, hid, tr⟩ := w
  obtain ⟨so, vi, hc, rc, hb, us, bu, lr, ic, ca, cb⟩ := eng
  cases so <;> cases hc <;> cases rc <;> cases hb <;>
    simp only [cleanup, removeEventListener, clearInterval, socketOff, socketDisconnect, cleared]

theorem single_cleanup (w : World) (h : SingleInstance w) : SingleInstance (cleanup w) := by
  have s1 : SingleInstance
      { w with intervals := cleared (handleOf w.eng TimerFamily.healthCheck) w.intervals
               eng.healthCheckInterval := none } :=
    single_null w _ TimerFamily.healthCheck h rfl (by intro g; cases g <;> rfl)
  have s2 := single_null _
    { w with intervals := cleared w.eng.reconnectInterval
               (cleared (handleOf w.eng TimerFamily.healthCheck) w.intervals)
             eng.healthCheckInterval := none
             eng.reconnectInterval := none }
    TimerFamily.reconnect s1 rfl (by intro g; cases g <;> rfl)
  have s3 := single_null _
    { w with intervals := cleared w.eng.heartbeatInterval (cleared w.eng.reconnectInterval
               (cleared (handleOf w.eng TimerFamily.healthCheck) w.intervals))
             eng.healthCheckInterval := none
             eng.reconnectInterval := none
             eng.heartbeatInterval := none }
    TimerFamily.heartbeat s2 rfl (by intro g; cases g <;> rfl)
  refine single_frame _ _ ?_ ?_ s3
  · rw [cleanup_intervals]
    rfl
  · intro g
    rw [cleanup_eng]
    cases g <;> rfl

theorem single_initializeBegin (userId backendUrl : Option String) (w : World)
    (h : SingleInstance w) : SingleInstance (initializeBegin userId backendUrl w).2 := by
  unfold initializeBegin
  split_ifs
  · exact single_frame w _ rfl (fun _ => rfl) h
  · exact single_frame w _ rfl (fun _ => rfl) h
  · refine single_frame (cleanup _) _ rfl (fun _ => rfl) (single_cleanup _ ?_)
    exact single_frame w _ rfl (fun g => by cases g <;> rfl) h

theorem single_registerSession (userId : Option String) (browserInfo : Option DeviceInfo)
    (w : World) (h : SingleInstance w) :
    SingleInstance (registerSession userId browserInfo w).2 := by
  cases hu : truthy userId with
  | false =>
    have e : registerSession userId browserInfo w
        = (false, logLine "Cannot register session - missing userId" w) := by
      simp [registerSession, hu]
    rw [e]
    exact single_frame w _ rfl (fun _ => rfl) h
  | true =>
    cases hs : w.eng.socket with
    | some sid =>
      cases hv : truthy w.eng.visitorId with
      | true =>
        rw [registerSession_emits userId browserInfo w sid hu hs hv]
        exact single_frame w _ rfl (fun g => by cases g <;> rfl) h
      | false =>
        have e : registerSession userId browserInfo w = (false, w) := by
          simp [registerSession, hu, hs, hv]
        rw [e]
        exact h
    | none =>
      cases hc : (truthy w.eng.visitorId && truthy w.eng.userId && truthy w.eng.backendUrl
          && !w.eng.isConnecting) with
      | true =>
        have e : registerSession userId browserInfo w
            = (false, (initializeBegin w.eng.userId w.eng.backendUrl w).2) := by
          simp only [registerSession, hu, hs, hc, Bool.not_true, Bool.false_eq_true, if_false,
            if_true]
        rw [e]
        exact single_initializeBegin _ _ w h
      | false =>
        have e : registerSession userId browserInfo w = (false, w) := by
          simp only [registerSession, hu, hs, hc, Bool.not_true, Bool.false_eq_true, if_false]
        rw [e]
        exact h

theorem single_onConnect (userId : Option String) (browserInfo : DeviceInfo) (w : World)
    (h : SingleInstance w) : SingleInstance (onConnect userId browserInfo w) := by
  have s0 : SingleInstance { w with eng.isConnecting := false, eng.connectionAttempts := 0 } :=
    single_frame w _ rfl (fun g => by cases g <;> rfl) h
  have s1 := single_registerSession userId (some browserInfo) _ s0
  have s2 := single_startHeartbeat _ (single_startHealthCheck _ s1)
  have s3 : ∀ v : World, SingleInstance v → SingleInstance
      (match v.eng.reconnectInterval with
        | some id => { clearInterval id v with eng.reconnectInterval := none }
        | none => v) := by
    intro v hv
    apply single_null v _ TimerFamily.reconnect hv
    · cases hr : v.eng.reconnectInterval <;> simp [cleared, handleOf, hr, clearInterval]
    · intro g
      cases hr : v.eng.reconnectInterval <;> cases g <;> simp [handleOf, hr, clearInterval]
  have s4 : ∀ v : World, SingleInstance v → SingleInstance
      (match v.eng.callbacks.onConnect with
        | some h => { v with trace := v.trace ++ [Effect.onConnect h] }
        | none => v) := by
    intro v hv
    cases v.eng.callbacks.onConnect with
    | none => exact hv
    | some c => exact single_frame v _ rfl (fun _ => rfl) hv
  exact single_frame _ _ rfl (fun _ => rfl) (s4 _ (s3 _ s2))

theorem single_tick (f : TimerFamily) (w : World) (h : SingleInstance w) :
    SingleInstance (f.tick w) := by
  cases f with
  | heartbeat =>
    simp only [TimerFamily.tick, heartbeatTick]
    cases w.eng.socket with
    | none => exact h
    | some sid =>
      simp only []
      split_ifs
      · exact single_frame w _ rfl (fun _ => rfl) h
      · exact h
  | healthCheck =>
    simp only [TimerFamily.tick, healthCheckTick]
    cases w.eng.socket with
    | none => exact h
    | some sid =>
      simp only []
      split_ifs
      · exact single_frame w _ rfl (fun _ => rfl) h
      · exact single_startReconnectStrategy _ (single_frame w _ rfl (fun _ => rfl) h)
      · exact h
  | reconnect =>
    simp only [TimerFamily.tick, reconnectTick]
    by_cases hc : (!socketConnected w) = true
    · rw [if_pos hc]
      cases w.eng.socket with
      | some sid => exact single_frame w _ rfl (fun _ => rfl) h
      | none =>
        simp only []
        by_cases hi : (truthy w.eng.userId && truthy w.eng.backendUrl && !w.eng.isConnecting)
            = true
        · rw [if_pos hi]
          exact single_initializeBegin _ _ _ (single_frame w _ rfl (fun _ => rfl) h)
        · rw [if_neg hi]
          exact h
    · rw [if_neg hc]
      by_cases ht : (w.now : Int) - (w.eng.lastRegistered : Int) > 45000
      · rw [if_pos ht]
        exact single_registerSession _ _ w h
      · rw [if_neg ht]
        exact h

theorem single_run (op : TimerOp) (w : World) (h : SingleInstance w) :
    SingleInstance (op.run w) := by
  cases op with
  | startHeartbeat => exact single_startHeartbeat w h
  | startHealthCheck => exact single_startHealthCheck w h
  | startReconnectStrategy => exact single_startReconnectStrategy w h
  | connect userId browserInfo => exact single_onConnect userId browserInfo w h
  | tick id =>
    simp only [TimerOp.run, fireInterval]
    cases w.intervals.find? (fun t => t.id == id) with
    | none => exact h
    | some t => exact single_tick t.family w h
  | cleanup => exact single_cleanup w h

theorem single_runOps (ops : List TimerOp) (w : World) (h : SingleInstance w) :
    SingleInstance (runOps ops w) := by
  induction ops generalizing w with
  | nil => exact h
  | cons op ops ih => exact ih (op.run w) (single_run op w h)

theorem single_initial (now : Nat) (ua : String) : SingleInstance (World.initial now ua) := by
  refine ⟨?_, ?_⟩
  · intro t ht
    cases ht
  · intro f
    simp [activeTimers, World.initial]

theorem sessionRegistered_on_engine_socket (w : World) (sid cb : Nat) (message : Option String)
    (hs : w.eng.socket = some sid) (hx : sid < w.sockets.length)
    (hcb : w.eng.callbacks.onSessionRegistered = some cb) :
    (receive sid (Inbound.sessionRegistered ⟨true, message⟩) (setupEventListeners w)).trace
      = w.trace ++ [Effect.emit sid (Msg.heartbeat w.eng.userId w.eng.visitorId w.now),
                    Effect.onSessionRegistered cb ⟨true, message⟩] ∧
    (receive sid (Inbound.sessionRegistered ⟨true, message⟩) (setupEventListeners w)).timeouts
      = w.timeouts ++
          [{ id := w.timerSeq + 1, due := w.now + 1000, task := TimeoutTask.checkDuplicatesCurrent }] ∧
    (receive sid (Inbound.sessionRegistered ⟨false, message⟩) (setupEventListeners w)).trace
      = w.trace ++ [Effect.onSessionRegistered cb ⟨false, message⟩] ∧
    (receive sid (Inbound.sessionRegistered ⟨false, message⟩) (setupEventListeners w)).timeouts
      = w.timeouts ∧
    (socketConnected w = true → truthy w.eng.userId = true →
      (∀ t ∈ w.timeouts, t.id ≤ w.timerSeq) →
      (fireTimeout (w.timerSeq + 1) (advance 1000
        (receive sid (Inbound.sessionRegistered ⟨true, message⟩) (setupEventListeners w)))).trace
        = w.trace ++ [Effect.emit sid (Msg.heartbeat w.eng.userId w.eng.visitorId w.now),
                      Effect.onSessionRegistered cb ⟨true, message⟩,
                      Effect.emit sid (Msg.checkDuplicateSessions w.eng.userId w.eng.visitorId
                        (w.now + 1000))]) := by
  have hf := setupEventListeners_frame w
  have he := setupEventListeners_eng w
  have hs' : (setupEventListeners w).eng.socket = some sid := by rw [he]; exact hs
  have hcb' : (setupEventListeners w).eng.callbacks.onSessionRegistered = some cb := by
    rw [he]; exact hcb
  have hc := socketConnected_setupEventListeners w sid hs hx
  rw [receive_sessionRegistered w sid _ hs hx, receive_sessionRegistered w sid _ hs hx,
    onSessionRegistered_success _ sid cb message hs' hcb',
    onSessionRegistered_failure _ cb message hcb']
  refine ⟨?_, ?_, ?_, ?_, ?_⟩
  · rw [hf]
  · rw [hf]
  · rw [hf]
  · rw [hf]
  · intro hconn hu hfresh
    have hnow : (setupEventListeners w).now = w.now := by rw [hf]
    have htr : (setupEventListeners w).trace = w.trace := by rw [hf]
    have hts : (setupEventListeners w).timerSeq = w.timerSeq := by rw [hf]
    have hto : (setupEventListeners w).timeouts = w.timeouts := by rw [hf]
    have hmain := fire_check_after_registration (setupEventListeners w) sid cb message hs' hcb'
      (by rw [hc]; exact hconn) (by rw [he]; exact hu) (by rw [hto, hts]; exact hfresh)
    rw [onSessionRegistered_success _ sid cb message hs' hcb'] at hmain
    simp only [hnow, htr, hts, he] at hmain ⊢
    exact hmain

/-! ## The claims -/

/-- C1 (the code breaks the claim).  From a newly constructed engine, for every non-empty
`userId` and endpoint and every outcome of the two fingerprint computations: a call of
`initialize` followed by a second call made while the first is suspended at the fingerprint
`await` is not stopped by the `isConnecting` guard (both calls are suspended, none returns
`true` at once), and when both calls have resumed two socket objects have been created and
none of them has been disconnected. -/
theorem initialize_twice_opens_two_transports (userId backendUrl : Option String) (now : Nat)
    (ua : String) (r1 r2 : FingerprintRun)
    (hu : truthy userId = true) (he : truthy backendUrl = true) :
    (initializeBegin userId backendUrl (World.initial now ua)).1 = InitResult.suspended ∧
    (initializeBegin userId backendUrl
      (initializeBegin userId backendUrl (World.initial now ua)).2).1 = InitResult.suspended ∧
    openTransports (resumePending 0 r2 (resumePending 0 r1
      (initializeBegin userId backendUrl
        (initializeBegin userId backendUrl (World.initial now ua)).2).2)) = 2 := by
  obtain ⟨f1, p1, c1, s1, o1⟩ :=
    initializeBegin_proceeds userId backendUrl (World.initial now ua) hu he rfl
  obtain ⟨f2, p2, -, -, o2⟩ :=
    initializeBegin_proceeds userId backendUrl _ hu he c1
  have a1 := openTransports_resumePending 0 r1 _ (by rw [p2, p1]; simp)
  have a2 := openTransports_resumePending 0 r2 _ (by rw [a1.2, p2, p1]; simp)
  refine ⟨f1, f2, ?_⟩
  rw [a2.1, a1.1, o2 s1, o1 rfl]
  rfl

/-- Witness for C1: the run at user `u1` and endpoint `http://h`. -/
theorem initialize_twice_opens_two_transports_witness :
    truthy (some "u1") = true ∧ truthy (some "http://h") = true ∧
    openTransports (resumePending 0 ⟨some "fp", "r2"⟩ (resumePending 0 ⟨some "fp", "r1"⟩
      (initializeBegin (some "u1") (some "http://h")
        (initializeBegin (some "u1") (some "http://h") (World.initial 0 "ua")).2).2)) = 2 :=
  ⟨by decide, by decide,
    (initialize_twice_opens_two_transports (some "u1") (some "http://h") 0 "ua"
      ⟨some "fp", "r1"⟩ ⟨some "fp", "r2"⟩ (by decide) (by decide)).2.2⟩

/-- C2.  A call of `initialize` with a missing or empty `userId` or a missing or empty
endpoint returns `false` without suspending, and the world after it is the world before it
with one console line added: no field of the engine changes (identity, `isConnecting`,
attempt counter), no socket is made or closed, no timer or listener is added and no message
is emitted. -/
theorem initialize_rejects_missing_parameters (userId backendUrl : Option String) (w : World)
    (h : truthy userId = false ∨ truthy backendUrl = false) :
    initializeBegin userId backendUrl w
      = (InitResult.returned false,
          { w with trace := w.trace ++
              [Effect.console "DuplicateLoginManager: Missing required parameters"] }) := by
  rcases h with h | h <;> simp [initializeBegin, h, logLine]

/-- Witness for C2: an empty `userId`. -/
theorem initialize_rejects_missing_parameters_witness :
    initializeBegin (some "") (some "http://h") (World.initial 0 "ua")
      = (InitResult.returned false,
          { World.initial 0 "ua" with trace := (World.initial 0 "ua").trace ++
              [Effect.console "DuplicateLoginManager: Missing required parameters"] }) :=
  initialize_rejects_missing_parameters (some "") (some "http://h") (World.initial 0 "ua")
    (Or.inl (by decide))

/-- C3.  The method `cleanup` is a total function and is idempotent: applied twice it gives
the same world as applied once.  The trace is part of the world, so the second application
calls neither `disconnect` nor `clearInterval`. -/
theorem cleanup_idempotent (w : World) :
    cleanup (cleanup w) = cleanup w ∧ (cleanup (cleanup w)).trace = (cleanup w).trace := by
  have h : cleanup (cleanup w) = cleanup w := by
    apply cleanup_of_clean <;> rw [cleanup_eng]
  exact ⟨h, by rw [h]⟩

/-- C4 (as amended).  After `cleanup` the socket and the three timer handles are null,
`isConnecting` is false and `connectionAttempts` is 0; `userId`, `backendUrl`, `visitorId`,
`lastRegistered` and the callbacks keep the values they had before. -/
theorem cleanup_resets_connection_state_only (w : World) :
    (cleanup w).eng =
      { socket := none, visitorId := w.eng.visitorId, healthCheckInterval := none,
        reconnectInterval := none, heartbeatInterval := none, userId := w.eng.userId,
        backendUrl := w.eng.backendUrl, lastRegistered := w.eng.lastRegistered,
        isConnecting := false, connectionAttempts := 0, callbacks := w.eng.callbacks } :=
  cleanup_eng w

/-- C4, counterexample to the claim as stated: after `initialize("u1", "http://h")`, the
fingerprint `fp` and the `connect` event at time 1000, `cleanup` leaves `userId`, `backendUrl`,
`visitorId` and `lastRegistered` at their values, which are not the constructor's. -/
theorem cleanup_keeps_identity_counterexample :
    (cleanup (receive 0 Inbound.connect (resumePending 0 ⟨some "fp", "r"⟩
      (initializeBegin (some "u1") (some "http://h") (World.initial 1000 "ua")).2))).eng
      = { Engine.initial with userId := some "u1"
                              backendUrl := some "http://h"
                              visitorId := some "fp"
                              lastRegistered := 1000 } ∧
    (cleanup (receive 0 Inbound.connect (resumePending 0 ⟨some "fp", "r"⟩
      (initializeBegin (some "u1") (some "http://h") (World.initial 1000 "ua")).2))).eng
      ≠ Engine.initial := by
  decide

/-- C5 (the code breaks the claim).  The method `cleanup` removes no listener from
`document`: its `removeEventListener` call is given a new function object.  After
`initialize("u1", "http://h")` and `cleanup`, the `visibilitychange` listener added by
`setupVisibilityHandling` is still registered, and a later visibility change runs
`handleVisibilityChange`, which schedules a re-registration. -/
theorem cleanup_keeps_visibility_listener :
    (∀ w : World, (cleanup w).docListeners = w.docListeners) ∧
    (cleanup (resumePending 0 ⟨some "fp", "r"⟩
      (initializeBegin (some "u1") (some "http://h") (World.initial 1000 "ua")).2)).docListeners
      = [{ type := "visibilitychange", fn := 1 }] ∧
    (visibilityChange false (cleanup (resumePending 0 ⟨some "fp", "r"⟩
      (initializeBegin (some "u1") (some "http://h") (World.initial 1000 "ua")).2))).timeouts
      = [{ id := 1, due := 2000, task := TimeoutTask.reRegisterAndCheck }] := by
  refine ⟨cleanup_docListeners, ?_, ?_⟩ <;> decide

/-- C6 (as amended).  Two fingerprint resolutions that share the persisted storage return
the same value when the fingerprinting computation fails on the second one and the first
value is not empty.  When the computation succeeds the resolution returns the computed value,
whatever is stored, and stores it; when it fails the stored value is reused if there is a
non-empty one, and otherwise a new value is synthesized and stored. -/
theorem fingerprint_stable_when_computation_fails (u1 u2 : Option String) (run1 : FingerprintRun)
    (v e2 : String) (w w2 : World)
    (hshare : w2.sessionStorage = (resolveFingerprint u1 run1 w).sessionStorage)
    (hne : truthy (resolveFingerprint u1 run1 w).eng.visitorId = true) :
    (resolveFingerprint u2 ⟨none, e2⟩ w2).eng.visitorId
        = (resolveFingerprint u1 run1 w).eng.visitorId ∧
    (resolveFingerprint u2 ⟨some v, e2⟩ w2).eng.visitorId = some v ∧
    getItem "dlm_fingerprint" (resolveFingerprint u2 ⟨some v, e2⟩ w2) = some v ∧
    (resolveFingerprint u2 ⟨none, e2⟩ w2).eng.visitorId
        = (if truthy (getItem "dlm_fingerprint" w2) then getItem "dlm_fingerprint" w2
           else some (fallbackFingerprint u2 w2.now e2)) := by
  have hg : getItem "dlm_fingerprint" w2 = (resolveFingerprint u1 run1 w).eng.visitorId := by
    rw [← resolveFingerprint_stored]
    simp only [getItem, hshare]
  refine ⟨?_, (resolveFingerprint_success u2 v e2 w2).1, (resolveFingerprint_success u2 v e2 w2).2,
    (resolveFingerprint_failure u2 e2 w2).1⟩
  rw [(resolveFingerprint_failure u2 e2 w2).1, hg, if_pos hne]

/-- Witness for C6: the first resolution computes
`fp`, the page is loaded again with the same storage and the computation fails. -/
theorem fingerprint_stable_when_computation_fails_witness :
    (resolveFingerprint (some "u1") ⟨none, "r2"⟩
        { World.initial 5000 "ua" with
          sessionStorage :=
            (resolveFingerprint (some "u1") ⟨some "fp", "r"⟩ (World.initial 0 "ua")).sessionStorage
        }).eng.visitorId
      = (resolveFingerprint (some "u1") ⟨some "fp", "r"⟩ (World.initial 0 "ua")).eng.visitorId :=
  (fingerprint_stable_when_computation_fails (some "u1") (some "u1") ⟨some "fp", "r"⟩ "fp2" "r2"
    (World.initial 0 "ua") _ rfl (by decide)).1

/-- C6, counterexample to the claim as stated: with an empty storage the first resolution,
whose computation fails, returns and stores a synthesized value; the second resolution on
the same storage, whose computation succeeds with `fp`, returns `fp`: it does not reuse the
stored fingerprint, and the two values differ. -/
theorem fingerprint_changes_counterexample :
    (resolveFingerprint (some "u1") ⟨none, "r"⟩ (World.initial 1000 "ua")).eng.visitorId
      = some "fallback-u1-1000-r" ∧
    getItem "dlm_fingerprint" (resolveFingerprint (some "u1") ⟨none, "r"⟩ (World.initial 1000 "ua"))
      = some "fallback-u1-1000-r" ∧
    (resolveFingerprint (some "u1") ⟨some "fp", "r"⟩
      (resolveFingerprint (some "u1") ⟨none, "r"⟩ (World.initial 1000 "ua"))).eng.visitorId
      = some "fp" ∧
    (resolveFingerprint (some "u1") ⟨some "fp", "r"⟩
      (resolveFingerprint (some "u1") ⟨none, "r"⟩ (World.initial 1000 "ua"))).eng.visitorId
      ≠ (resolveFingerprint (some "u1") ⟨none, "r"⟩ (World.initial 1000 "ua")).eng.visitorId := by
  decide

/-- C7.  The method `registerSession` is total, and it returns `true` exactly when it emits
a `register_session` message (it never emits more than one).  With a missing `userId` it
returns `false` and only writes a console line, so nothing is emitted and `lastRegistered`
is unchanged.  With a `userId`, a socket and a fingerprint it emits one `register_session`
carrying the given `userId`, the engine's fingerprint, the given device info (the locally
computed one when none is given) and the current time, sets `lastRegistered` to the current
time and returns `true`. -/
theorem registerSession_true_iff_emitted (userId : Option String)
    (browserInfo : Option DeviceInfo) (w : World) :
    registerCount (registerSession userId browserInfo w).2.trace
        = registerCount w.trace + (if (registerSession userId browserInfo w).1 then 1 else 0) ∧
    (truthy userId = false →
      registerSession userId browserInfo w
        = (false, { w with trace := w.trace ++
            [Effect.console "Cannot register session - missing userId"] })) ∧
    (∀ sid, truthy userId = true → w.eng.socket = some sid → truthy w.eng.visitorId = true →
      registerSession userId browserInfo w
        = (true, { w with eng.lastRegistered := w.now
                          trace := w.trace ++
                            [Effect.emit sid (Msg.registerSession userId w.eng.visitorId
                              (browserInfo.getD (getBrowserInfo w.userAgent)) w.now)] })) := by
  refine ⟨?_, ?_, ?_⟩
  · cases hu : truthy userId with
    | false => simp [registerSession, hu, logLine, registerCount_append, registerCount]
    | true =>
      cases hs : w.eng.socket with
      | some sid =>
        cases hv : truthy w.eng.visitorId <;>
          simp [registerSession, hu, hs, hv, emit, registerCount_append, registerCount]
      | none =>
        cases hc : (truthy w.eng.visitorId && truthy w.eng.userId && truthy w.eng.backendUrl
            && !w.eng.isConnecting) <;>
          simp only [registerSession, hu, hs, hc, Bool.not_true, Bool.false_eq_true, if_false,
            if_true, initializeBegin_registerCount, add_zero]
  · intro h
    simp [registerSession, h, logLine]
  · intro sid hu hs hv
    exact registerSession_emits userId browserInfo w sid hu hs hv

/-- Witness for C7: both cases, on the connected engine. -/
theorem registerSession_true_iff_emitted_witness :
    (registerSession none none connectedWorld).1 = false ∧
    (registerSession (some "u1") none connectedWorld).1 = true ∧
    (registerSession (some "u1") none connectedWorld).2.eng.lastRegistered = connectedWorld.now :=
  ⟨congrArg Prod.fst
      ((registerSession_true_iff_emitted none none connectedWorld).2.1 (by decide)),
    congrArg Prod.fst
      ((registerSession_true_iff_emitted (some "u1") none connectedWorld).2.2 0
        (by decide) (by decide) (by decide)),
    congrArg (fun r => r.2.eng.lastRegistered)
      ((registerSession_true_iff_emitted (some "u1") none connectedWorld).2.2 0
        (by decide) (by decide) (by decide))⟩

/-- C8 (as amended).  With a `userId`, a fingerprint and a socket present, the throttled
triggers (the acknowledgment of the periodic health check with status `ok`, and a tick of
the reconnect watchdog while the socket is connected) change nothing, so they emit no
`register_session`, when at most 45000 ms have passed since `lastRegistered`; when more than
45000 ms have passed each of them emits exactly one `register_session`, and the
acknowledgment also emits one `check_duplicate_sessions` if the socket is connected. -/
theorem reregistration_throttled_at_45s (w : World) (sid : Nat)
    (hu : truthy w.eng.userId = true) (hv : truthy w.eng.visitorId = true)
    (hs : w.eng.socket = some sid) :
    (w.now ≤ w.eng.lastRegistered + 45000 →
      healthAckPeriodic (some (some "ok")) w = w ∧
      (socketConnected w = true → reconnectTick w = w)) ∧
    (w.eng.lastRegistered + 45000 < w.now →
      (healthAckPeriodic (some (some "ok")) w).trace
        = w.trace ++
            [Effect.emit sid (Msg.registerSession w.eng.userId w.eng.visitorId
              (getBrowserInfo w.userAgent) w.now)] ++
            (if socketConnected w then
              [Effect.emit sid (Msg.checkDuplicateSessions w.eng.userId w.eng.visitorId w.now)]
             else []) ∧
      (socketConnected w = true →
        (reconnectTick w).trace
          = w.trace ++
              [Effect.emit sid (Msg.registerSession w.eng.userId w.eng.visitorId
                (getBrowserInfo w.userAgent) w.now)])) := by
  have hok : statusOk (some (some "ok")) = true := by decide
  have hreg := registerSession_emits w.eng.userId (some (getBrowserInfo w.userAgent)) w sid
    hu hs hv
  constructor
  · intro hle
    have hnot : ¬ ((w.now : Int) - (w.eng.lastRegistered : Int) > 45000) := by omega
    refine ⟨?_, ?_⟩
    · simp only [healthAckPeriodic, hok, if_true, hnot, if_false]
    · intro hc
      simp only [reconnectTick, hc, Bool.not_true, Bool.false_eq_true, if_false, hnot]
  · intro hlt
    have hgt : (w.now : Int) - (w.eng.lastRegistered : Int) > 45000 := by omega
    refine ⟨?_, ?_⟩
    · simp only [healthAckPeriodic, hok, if_true, hgt, hreg, Option.getD_some]
      simp only [checkForDuplicateSessions, hs, hu, socketConnected, Bool.not_true,
        Bool.false_or, emit]
      cases hc : (match w.sockets[sid]? with
        | some s => s.connected
        | none => false) <;> simp
    · intro hc
      simp only [reconnectTick, hc, Bool.not_true, Bool.false_eq_true, if_false, hgt, if_true,
        hreg, Option.getD_some]

/-- Witness for C8: the connected engine, 45001 ms after its
registration. -/
theorem reregistration_throttled_at_45s_witness :
    (advance 45001 connectedWorld).eng.lastRegistered + 45000 < (advance 45001 connectedWorld).now ∧
    registerCount (healthAckPeriodic (some (some "ok")) (advance 45001 connectedWorld)).trace
      = registerCount (advance 45001 connectedWorld).trace + 1 := by
  have h := (reregistration_throttled_at_45s (advance 45001 connectedWorld) 0
    (by decide) (by decide) (by decide)).2 (by decide)
  refine ⟨by decide, ?_⟩
  rw [h.1]
  decide

/-- C8, counterexample to the claim as stated: the connected engine registered at time
1000; at time 46000, which is 45 s later, the acknowledgment of the periodic health check
and the tick of the reconnect watchdog both leave the world as it is and emit nothing. -/
theorem reregistration_at_exactly_45s_counterexample :
    (advance 45000 connectedWorld).now = (advance 45000 connectedWorld).eng.lastRegistered + 45000 ∧
    truthy (advance 45000 connectedWorld).eng.userId = true ∧
    truthy (advance 45000 connectedWorld).eng.visitorId = true ∧
    (advance 45000 connectedWorld).eng.socket = some 0 ∧
    socketConnected (advance 45000 connectedWorld) = true ∧
    healthAckPeriodic (some (some "ok")) (advance 45000 connectedWorld)
      = advance 45000 connectedWorld ∧
    reconnectTick (advance 45000 connectedWorld) = advance 45000 connectedWorld := by
  decide

/-- C9.  On a socket whose listeners were installed by `setupEventListeners`, with an
`onDuplicateLogin` handler registered: a `duplicate_login_detected` event, and a
`duplicate_sessions_check_result` event with `hasDuplicates` true, each add exactly one
effect to the trace, one invocation of `onDuplicateLogin`; its payload carries the timestamp
and the device info of the event when the event has them and otherwise the current time
and the locally computed device info.  A `duplicate_sessions_check_result` event with
`hasDuplicates` false adds no effect. -/
theorem duplicate_events_invoke_handler_once (w : World) (sid cb : Nat)
    (message timestamp : Option String) (deviceInfo : Option DeviceInfo) (flag : Bool)
    (hs : w.eng.socket = some sid) (hx : sid < w.sockets.length)
    (hcb : w.eng.callbacks.onDuplicateLogin = some cb) :
    (receive sid (Inbound.duplicateLoginDetected ⟨flag, message, timestamp, deviceInfo⟩)
        (setupEventListeners w)).trace
      = w.trace ++ [Effect.onDuplicateLogin cb
          { message := message,
            timestamp := if truthy timestamp then TimeStamp.given (timestamp.getD "")
                         else TimeStamp.isoOf w.now,
            deviceInfo := deviceInfo.getD (getBrowserInfo w.userAgent) }] ∧
    (receive sid (Inbound.duplicateSessionsCheckResult ⟨true, message, timestamp, deviceInfo⟩)
        (setupEventListeners w)).trace
      = w.trace ++ [Effect.onDuplicateLogin cb
          { message := if truthy message then message else some "Phát hiện đăng nhập trùng lặp",
            timestamp := if truthy timestamp then TimeStamp.given (timestamp.getD "")
                         else TimeStamp.isoOf w.now,
            deviceInfo := deviceInfo.getD (getBrowserInfo w.userAgent) }] ∧
    (receive sid (Inbound.duplicateSessionsCheckResult ⟨false, message, timestamp, deviceInfo⟩)
        (setupEventListeners w)).trace
      = w.trace := by
  have hx' := List.getElem?_eq_getElem hx
  have h1 := listenersFor_setupEventListeners w sid _ SocketEvent.duplicateLoginDetected hs hx'
    (by decide)
  have h2 := listenersFor_setupEventListeners w sid _ SocketEvent.duplicateSessionsCheckResult
    hs hx' (by decide)
  have hf := setupEventListeners_frame w
  refine ⟨?_, ?_, ?_⟩
  · simp only [receive, Inbound.event, h1]
    rw [hf]
    simp [Handler.event, Handler.run, onDuplicateLoginDetected, hcb]
  · simp only [receive, Inbound.event, h2]
    rw [hf]
    simp [Handler.event, Handler.run, onDuplicateSessionsCheckResult, hcb]
  · simp only [receive, Inbound.event, h2]
    rw [hf]
    simp [Handler.event, Handler.run, onDuplicateSessionsCheckResult, hcb]

/-- Witness for C9: an event with no timestamp and no
device info, on the connected engine with handler 7 registered. -/
theorem duplicate_events_invoke_handler_once_witness :
    listeningWorld.eng.socket = some 0 ∧ 0 < listeningWorld.sockets.length ∧
    listeningWorld.eng.callbacks.onDuplicateLogin = some 7 ∧
    (receive 0 (Inbound.duplicateLoginDetected ⟨false, none, none, none⟩)
        (setupEventListeners listeningWorld)).trace
      = listeningWorld.trace ++ [Effect.onDuplicateLogin 7
          { message := none,
            timestamp := if truthy none then TimeStamp.given ((none : Option String).getD "")
                         else TimeStamp.isoOf listeningWorld.now,
            deviceInfo := (none : Option DeviceInfo).getD (getBrowserInfo listeningWorld.userAgent) }] :=
  ⟨by decide, by decide, by decide,
    (duplicate_events_invoke_handler_once listeningWorld 0 7 none none none false
      (by decide) (by decide) (by decide)).1⟩

/-- C10.  The `refresh_detected` listener, for every state of the engine and every payload:
it adds no effect to the trace, so it never invokes `onDuplicateLogin`; when a `userId` is
tracked it schedules one timeout due 500 ms later and changes nothing else, and with no
`userId` it changes nothing.  The timeout, when it fires, calls `registerSession` with the
`userId` of that moment and device info computed at that moment.  On a socket whose
listeners were installed by `setupEventListeners` the event runs this listener once. -/
theorem refresh_detected_only_schedules_registration (w : World) (payload : Option String)
    (sid : Nat) :
    Handler.run Handler.refreshDetected (Inbound.refreshDetected payload) w
      = (if truthy w.eng.userId then
          { w with timerSeq := w.timerSeq + 1
                   timeouts := w.timeouts ++
                     [{ id := w.timerSeq + 1, due := w.now + 500, task := TimeoutTask.reRegister }] }
         else w) ∧
    (Handler.run Handler.refreshDetected (Inbound.refreshDetected payload) w).trace = w.trace ∧
    TimeoutTask.run TimeoutTask.reRegister w
      = (registerSession w.eng.userId (some (getBrowserInfo w.userAgent)) w).2 ∧
    (w.eng.socket = some sid → sid < w.sockets.length →
      receive sid (Inbound.refreshDetected payload) (setupEventListeners w)
        = Handler.run Handler.refreshDetected (Inbound.refreshDetected payload)
            (setupEventListeners w)) := by
  refine ⟨?_, ?_, rfl, ?_⟩
  · simp only [Handler.run, onRefreshDetected, setTimeout]
  · simp only [Handler.run, onRefreshDetected, setTimeout]
    split_ifs <;> rfl
  · intro hs hx
    have h := listenersFor_setupEventListeners w sid _ SocketEvent.refreshDetected hs
      (List.getElem?_eq_getElem hx) (by decide)
    simp only [receive, Inbound.event, h]
    simp [Handler.event]

/-- Witness for C10: the event on the connected engine. -/
theorem refresh_detected_only_schedules_registration_witness :
    listeningWorld.eng.socket = some 0 ∧ 0 < listeningWorld.sockets.length ∧
    receive 0 (Inbound.refreshDetected none) (setupEventListeners listeningWorld)
      = Handler.run Handler.refreshDetected (Inbound.refreshDetected none)
          (setupEventListeners listeningWorld) :=
  ⟨by decide, by decide,
    (refresh_detected_only_schedules_registration listeningWorld none 0).2.2.2
      (by decide) (by decide)⟩

/-- C11 (the code breaks the claim).  In the run `leakedSocketWorld` the engine has no
socket, an `onSessionRegistered` handler is registered, and socket 0, on which the engine
registered its session, still carries the `session_registered` listener.  When the
coordinator's answer `session_registered` with `success` true arrives on socket 0, the
listener sets `lastRegistered`, then the call `this.socket.emit` throws a `TypeError`: no
heartbeat is emitted, no duplicate-session check is scheduled and the response is not
handed to `onSessionRegistered`.  An answer with `success` false on the same socket is
handed to `onSessionRegistered`. -/
theorem session_registered_not_forwarded_without_socket :
    leakedSocketWorld.eng.socket = none ∧
    leakedSocketWorld.eng.callbacks.onSessionRegistered = some 2 ∧
    listenersFor 0 SocketEvent.sessionRegistered leakedSocketWorld
      = [Handler.sessionRegistered] ∧
    (receive 0 (Inbound.sessionRegistered ⟨true, none⟩) leakedSocketWorld).trace
      = leakedSocketWorld.trace ++ [Effect.uncaught "TypeError"] ∧
    (receive 0 (Inbound.sessionRegistered ⟨true, none⟩) leakedSocketWorld).timeouts
      = leakedSocketWorld.timeouts ∧
    (receive 0 (Inbound.sessionRegistered ⟨true, none⟩) leakedSocketWorld).eng.lastRegistered
      = leakedSocketWorld.now ∧
    (receive 0 (Inbound.sessionRegistered ⟨false, none⟩) leakedSocketWorld).trace
      = leakedSocketWorld.trace ++ [Effect.onSessionRegistered 2 ⟨false, none⟩] := by
  decide

/-- C12.  On the engine's socket, with listeners installed by `setupEventListeners` and an
`onDisconnect` handler registered, a `disconnect` event with any reason invokes
`onDisconnect` once with that reason.  When the reason is `io server disconnect`,
`transport close` or `ping timeout` the listener then calls `connect()` on the socket and
the reconnect watchdog is running afterwards (a new 8000 ms interval is created unless one
was already recorded).  For every other reason nothing else happens: no `connect()` call,
the interval timers and the watchdog handle are unchanged. -/
theorem disconnect_reconnects_iff_involuntary (w : World) (sid cb : Nat) (reason : String)
    (hs : w.eng.socket = some sid) (hx : sid < w.sockets.length)
    (hcb : w.eng.callbacks.onDisconnect = some cb) :
    (receive sid (Inbound.disconnect reason) (setupEventListeners w)).trace
      = w.trace ++ [Effect.onDisconnect cb reason] ++
          (if reason = "io server disconnect" ∨ reason = "transport close"
              ∨ reason = "ping timeout" then [Effect.socketConnect sid] else []) ∧
    (receive sid (Inbound.disconnect reason) (setupEventListeners w)).intervals
      = (if (reason = "io server disconnect" ∨ reason = "transport close"
              ∨ reason = "ping timeout") ∧ w.eng.reconnectInterval = none
         then w.intervals ++ [{ id := w.timerSeq + 1, family := TimerFamily.reconnect, period := 8000 }]
         else w.intervals) ∧
    (receive sid (Inbound.disconnect reason) (setupEventListeners w)).eng.reconnectInterval
      = (if reason = "io server disconnect" ∨ reason = "transport close"
              ∨ reason = "ping timeout"
         then some (w.eng.reconnectInterval.getD (w.timerSeq + 1))
         else w.eng.reconnectInterval) := by
  have h := listenersFor_setupEventListeners w sid _ SocketEvent.disconnect hs
    (List.getElem?_eq_getElem hx) (by decide)
  have hf := setupEventListeners_frame w
  have hr : receive sid (Inbound.disconnect reason) (setupEventListeners w)
      = onDisconnect reason
          { setupEventListeners w with
            sockets := modifyAt (fun s => { s with connected := false }) sid
              (setupEventListeners w).sockets } := by
    simp only [receive, Inbound.event, h]
    simp [Handler.event, Handler.run]
  rw [hr, hf]
  by_cases hr1 : reason = "io server disconnect" ∨ reason = "transport close"
      ∨ reason = "ping timeout"
  · have hb : (reason == "io server disconnect" || reason == "transport close"
        || reason == "ping timeout") = true := by
      simpa [Bool.or_eq_true, beq_iff_eq, or_assoc] using hr1
    cases hri : w.eng.reconnectInterval with
    | none =>
      simp [onDisconnect, hcb, hs, hb, hr1, hri, socketConnect, startReconnectStrategy, setInterval]
    | some id =>
      simp [onDisconnect, hcb, hs, hb, hr1, hri, socketConnect, startReconnectStrategy]
  · have hb : (reason == "io server disconnect" || reason == "transport close"
        || reason == "ping timeout") = false := by
      rw [Bool.eq_false_iff]
      intro hcon
      apply hr1
      simpa [Bool.or_eq_true, beq_iff_eq, or_assoc] using hcon
    simp [onDisconnect, hcb, hb, hr1]

/-- Witness for C12: the reason `transport close` on the connected engine. -/
theorem disconnect_reconnects_iff_involuntary_witness :
    observedWorld.eng.socket = some 0 ∧ 0 < observedWorld.sockets.length ∧
    observedWorld.eng.callbacks.onDisconnect = some 4 ∧
    (receive 0 (Inbound.disconnect "transport close") (setupEventListeners observedWorld)).trace
      = observedWorld.trace ++ [Effect.onDisconnect 4 "transport close"] ++
          (if "transport close" = "io server disconnect" ∨ "transport close" = "transport close"
              ∨ "transport close" = "ping timeout" then [Effect.socketConnect 0] else []) :=
  ⟨by decide, by decide, by decide,
    (disconnect_reconnects_iff_involuntary observedWorld 0 4 "transport close" (by decide)
      (by decide) (by decide)).1⟩

/-- C13 (as amended).  For every engine state that has a socket, after `logout(userId)`
the tracked `userId` is null, exactly one `logout` message carrying the given `userId` has
been emitted on the socket, and one timeout due 500 ms later is scheduled whose body is
`cleanup`; nothing else changes. -/
theorem logout_clears_identity_with_transport (userId : Option String) (w : World) (sid : Nat)
    (hs : w.eng.socket = some sid) :
    logout userId w
      = { w with eng.userId := none
                 timerSeq := w.timerSeq + 1
                 timeouts := w.timeouts ++
                   [{ id := w.timerSeq + 1, due := w.now + 500, task := TimeoutTask.cleanup }]
                 trace := w.trace ++ [Effect.emit sid (Msg.logout userId)] } ∧
    (logout userId w).eng.userId = none ∧
    TimeoutTask.run TimeoutTask.cleanup w = cleanup w := by
  refine ⟨?_, ?_, rfl⟩ <;> simp [logout, hs, emit, setTimeout]

/-- Witness for C13: `logout("u1")` on the connected engine. -/
theorem logout_clears_identity_with_transport_witness :
    observedWorld.eng.socket = some 0 ∧ observedWorld.eng.userId = some "u1" ∧
    (logout (some "u1") observedWorld).eng.userId = none :=
  ⟨by decide, by decide,
    (logout_clears_identity_with_transport (some "u1") observedWorld 0 (by decide)).2.1⟩

/-- C13, counterexample to the claim as stated: on an engine that has no socket (its
`initialize` call is awaiting the fingerprint) `logout("u1")` changes nothing, and the
tracked `userId` is still `u1`. -/
theorem logout_without_transport_counterexample :
    connectingWorld.eng.socket = none ∧
    logout (some "u1") connectingWorld = connectingWorld ∧
    (logout (some "u1") connectingWorld).eng.userId = some "u1" := by
  decide

/-- C14 (the code breaks the claim).  On an engine whose socket is made but not yet
connected, `logout("u1")` at time 1000 clears the tracked `userId` and schedules `cleanup`
for time 1500.  When the socket's `connect` event arrives at time 1100, the `connect`
listener calls `registerSession` with the `userId` its `initialize` call captured, and a
`register_session` message for `u1` is emitted. -/
theorem connect_after_logout_registers_session :
    loggedOutBeforeConnect.eng.userId = none ∧
    loggedOutBeforeConnect.timeouts = [{ id := 1, due := 1500, task := TimeoutTask.cleanup }] ∧
    (receive 0 Inbound.connect (advance 100 loggedOutBeforeConnect)).trace
      = loggedOutBeforeConnect.trace ++
          [Effect.emit 0 (Msg.registerSession (some "u1") (some "fp") (getBrowserInfo "ua") 1100)] ∧
    registerCount (receive 0 Inbound.connect (advance 100 loggedOutBeforeConnect)).trace
      = registerCount loggedOutBeforeConnect.trace + 1 := by
  decide

/-- C15 (the code breaks the claim).  In the run `loggedOutAndCleaned` the `cleanup`
scheduled by `logout` has run: there is no socket, no `userId` and no interval timer, and
one `initialize` call is still suspended.  No `initialize` call is made afterwards.  When
the suspended call resumes it makes socket 1; when socket 1 connects and the coordinator
answers the registration with `session_registered` (success), a heartbeat is emitted. -/
theorem heartbeat_after_logout_cleanup :
    loggedOutAndCleaned.eng.socket = none ∧ loggedOutAndCleaned.eng.userId = none ∧
    loggedOutAndCleaned.intervals = [] ∧ loggedOutAndCleaned.timeouts = [] ∧
    loggedOutAndCleaned.pending = [{ userId := some "u1", backendUrl := some "http://h" }] ∧
    (receive 1 (Inbound.sessionRegistered ⟨true, none⟩)
      (receive 1 Inbound.connect
        (resumePending 0 ⟨some "fp", "r"⟩ loggedOutAndCleaned))).trace
      = loggedOutAndCleaned.trace ++
          [Effect.emit 1 (Msg.registerSession (some "u1") (some "fp") (getBrowserInfo "ua") 1500),
           Effect.emit 1 (Msg.heartbeat none (some "fp") 1500)] := by
  decide

/-- C16 (as amended).  For every engine state with a non-empty fingerprint `f`, the
`visitorId` field of the `getStatus` snapshot is the first 10 code units of `f` followed by
`...`; when `f` has more than 13 code units the field does not contain `f`; replacing the
fingerprint by one with the same first 10 code units gives the same snapshot; and with no
fingerprint the field is null. -/
theorem getStatus_truncates_fingerprint (socketId : Option String) (w : World) (f : String)
    (hf : w.eng.visitorId = some f) (hne : truthy (some f) = true) :
    (getStatus socketId w).visitorId = some ((utf16 f).take 10 ++ utf16 "...") ∧
    (13 < (utf16 f).length →
      ¬ List.IsInfix (utf16 f) ((utf16 f).take 10 ++ utf16 "...")) ∧
    (∀ f2 : String, (utf16 f2).take 10 = (utf16 f).take 10 →
      getStatus socketId { w with eng.visitorId := some f2 } = getStatus socketId w) ∧
    (getStatus socketId { w with eng.visitorId := none }).visitorId = none := by
  refine ⟨?_, ?_, ?_, ?_⟩
  · simp [getStatus, hf, hne]
  · intro hlen hin
    have h1 := hin.length_le
    have h2 : (utf16 "...").length = 3 := by decide
    simp only [List.length_append, List.length_take, h2] at h1
    omega
  · intro f2 htake
    have hne2 : truthy (some f2) = true := by
      rw [truthy_iff_utf16] at hne ⊢
      intro h0
      apply hne
      rw [← take_ten_eq_nil_iff, ← htake, h0]
      rfl
    simp [getStatus, hf, hne, hne2, htake, socketConnected]
  · simp [getStatus, truthy]

/-- Witness for C16: the fingerprint `0123456789abcdef0123456789abcdef`. -/
theorem getStatus_truncates_fingerprint_witness :
    (getStatus none
      (resumePending 0 ⟨some "0123456789abcdef0123456789abcdef", "r"⟩ connectingWorld)).visitorId
      = some ((utf16 "0123456789abcdef0123456789abcdef").take 10 ++ utf16 "...") :=
  (getStatus_truncates_fingerprint none
    (resumePending 0 ⟨some "0123456789abcdef0123456789abcdef", "r"⟩ connectingWorld)
    "0123456789abcdef0123456789abcdef" (by decide) (by decide)).1

/-- C16, counterexample to the claim as stated: with the fingerprint `abc123` the
`visitorId` field of the snapshot is `abc123...`, which begins with the whole
fingerprint. -/
theorem getStatus_short_fingerprint_counterexample :
    (resumePending 0 ⟨some "abc123", "r"⟩ connectingWorld).eng.visitorId = some "abc123" ∧
    (getStatus none (resumePending 0 ⟨some "abc123", "r"⟩ connectingWorld)).visitorId
      = some (utf16 "abc123" ++ utf16 "...") ∧
    List.IsPrefix (utf16 "abc123") (utf16 "abc123" ++ utf16 "...") :=
  ⟨by decide, by decide, List.prefix_append _ _⟩

/-- C17.  Single instance per timer family.  In every state reached from a newly
constructed engine, and more generally from any state with the property, by any sequence of
`startHeartbeat`, `startHealthCheck`, `startReconnectStrategy`, the `connect` listener,
firings of active interval timers and `cleanup`, every active interval timer is the one
recorded in the engine's handle for its family and each family has at most one active
timer.  Starting the heartbeat or the health check first clears the recorded timer and then
records the new one; starting the watchdog while one is recorded changes nothing. -/
theorem single_instance_per_timer_family (now : Nat) (ua : String) (ops : List TimerOp) :
    SingleInstance (runOps ops (World.initial now ua)) ∧
    (∀ w : World, SingleInstance w → SingleInstance (runOps ops w)) ∧
    (∀ w : World,
      (startHeartbeat w).intervals
        = cleared w.eng.heartbeatInterval w.intervals ++
            [{ id := w.timerSeq + 1, family := TimerFamily.heartbeat, period := 15000 }] ∧
      (startHeartbeat w).eng.heartbeatInterval = some (w.timerSeq + 1) ∧
      (startHealthCheck w).intervals
        = cleared w.eng.healthCheckInterval w.intervals ++
            [{ id := w.timerSeq + 1, family := TimerFamily.healthCheck, period := 20000 }] ∧
      (startHealthCheck w).eng.healthCheckInterval = some (w.timerSeq + 1)) ∧
    (∀ (w : World) (id : Nat), w.eng.heartbeatInterval = some id →
      (startHeartbeat w).trace = w.trace ++ [Effect.clearInterval id]) ∧
    (∀ (w : World) (id : Nat), w.eng.reconnectInterval = some id →
      startReconnectStrategy w = w) := by
  refine ⟨single_runOps ops _ (single_initial now ua), fun w h => single_runOps ops w h,
    ?_, ?_, ?_⟩
  · intro w
    refine ⟨?_, ?_, startHealthCheck_intervals w, ?_⟩
    · unfold startHeartbeat
      cases hb : w.eng.heartbeatInterval <;> simp [setInterval, clearInterval, cleared]
    · unfold startHeartbeat
      cases hb : w.eng.heartbeatInterval <;> simp [setInterval, clearInterval]
    · rw [startHealthCheck_eng]
  · intro w id hb
    simp [startHeartbeat, hb, setInterval, clearInterval]
  · intro w id hr
    simp [startReconnectStrategy, hr]

/-- Witness for C17: a sequence of operations on the connected engine, whose two timers are
the recorded ones. -/
theorem single_instance_per_timer_family_witness :
    SingleInstance observedWorld ∧
    SingleInstance (runOps
      [TimerOp.tick 1, TimerOp.startHeartbeat, TimerOp.startReconnectStrategy,
       TimerOp.connect (some "u1") (getBrowserInfo "ua"), TimerOp.cleanup,
       TimerOp.startHealthCheck] observedWorld) :=
  ⟨⟨by decide, fun f => by cases f <;> decide⟩,
    (single_instance_per_timer_family 0 "ua"
      [TimerOp.tick 1, TimerOp.startHeartbeat, TimerOp.startReconnectStrategy,
       TimerOp.connect (some "u1") (getBrowserInfo "ua"), TimerOp.cleanup,
       TimerOp.startHealthCheck]).2.1 observedWorld
      ⟨by decide, fun f => by cases f <;> decide⟩⟩

/-- C18 (the code breaks the claim).  For every user agent the `userAgent` field is the
input and the `device` field is `Desktop`, `Mobile` or `Tablet`, and every user agent that
contains `iPad` is reported as `Tablet`.  The user agent of an Android tablet contains
`Android` and no `Mobile`, so it passes the tablet test of source line 82, but it fails the
outer test of line 78 and is reported as `Desktop`. -/
theorem getBrowserInfo_android_tablet_is_desktop :
    (∀ ua : String, (getBrowserInfo ua).userAgent = ua ∧
      ((getBrowserInfo ua).device = "Desktop" ∨ (getBrowserInfo ua).device = "Mobile"
        ∨ (getBrowserInfo ua).device = "Tablet")) ∧
    (∀ ua : String, has "iPad" ua = true → (getBrowserInfo ua).device = "Tablet") ∧
    has "Android" androidTabletUA = true ∧ has "Mobile" androidTabletUA = false ∧
    tabletTest androidTabletUA = true ∧ mobileTest androidTabletUA = false ∧
    (getBrowserInfo androidTabletUA).device = "Desktop" := by
  refine ⟨?_, ?_, ?_, ?_, ?_, ?_, ?_⟩
  · intro ua
    refine ⟨rfl, ?_⟩
    simp only [getBrowserInfo, detectDevice]
    split_ifs <;> simp
  · intro ua h
    simp [getBrowserInfo, detectDevice, mobileTest, tabletTest, h]
  all_goals decide

end DuplicateLogin
